import Mathlib

/-!
Verification of the task/project domain core of a productivity backend:
per-field validation, the create extractor and the update pipeline, the
blocking-dependency edge sets, cascade delete, task serialization and
pagination, embedded from the Python sources
(`backend/helpers/task_helpers.py`, `backend/utils.py`,
`backend/helpers/user_helpers.py`, `backend/models.py`,
`backend/routes/tasks.py`, `backend/routes/projects.py`).
-/

namespace Hub

/-- JSON-like request values as produced by `request.get_json()`.
Python booleans are a subclass of `int`: `isinstance(b, int)` holds for
them, which `pyIsInt` and `pyToInt` reflect.  Floating-point JSON numbers
are not modelled. -/
inductive Value where
  | vNull
  | vBool (b : Bool)
  | vInt  (n : Int)
  | vStr  (s : String)
  | vList (xs : List Value)
  | vDict (xs : List (String × Value))

/-- Python truthiness (`bool(v)`) on the modelled values. -/
def Value.truthy : Value → Bool
  | .vNull    => false
  | .vBool b  => b
  | .vInt n   => n != 0
  | .vStr s   => s != ""
  | .vList xs => !xs.isEmpty
  | .vDict xs => !xs.isEmpty

/-- `isinstance(v, int)`: true for ints and bools (Python bools are ints). -/
def pyIsInt : Value → Bool
  | .vInt _  => true
  | .vBool _ => true
  | _        => false

/-- `isinstance(v, bool)`. -/
def pyIsBool : Value → Bool
  | .vBool _ => true
  | _        => false

/-- A JSON object / Python dict as an association list, first key wins. -/
abbrev Data := List (String × Value)

/-- `d[k]` lookup: `data.get(k)` without default (absent gives `none`). -/
def Data.get? : Data → String → Option Value
  | [], _ => none
  | (k', v) :: rest, k => if k' = k then some v else Data.get? rest k

/-- `data.get(k, dflt)`. -/
def Data.get (d : Data) (k : String) (dflt : Value) : Value :=
  (d.get? k).getD dflt

/-- `data.get(k)` where an absent key and an explicit JSON null coincide,
exactly as Python's `dict.get` returns `None` in both cases. -/
def Data.getN (d : Data) (k : String) : Value :=
  (d.get? k).getD .vNull

/-- `"k" in data`. -/
def Data.has (d : Data) (k : String) : Bool :=
  (d.get? k).isSome

/-- The whitespace characters stripped by Python's `str.strip()`
(ASCII subset; exotic unicode spaces are not modelled). -/
def isPySpace (c : Char) : Bool :=
  c == ' ' || c == '\t' || c == '\n' || c == '\r' || c == '\x0b' || c == '\x0c'

/-- Python `s.strip()`. -/
def pyStrip (s : String) : String :=
  String.mk (((s.data.dropWhile isPySpace).reverse.dropWhile isPySpace).reverse)

mutual

/-- Python `repr(v)` on the modelled values (string escaping inside
`repr` of a str is not modelled; container renderings follow Python). -/
def pyRepr : Value → String
  | .vNull    => "None"
  | .vBool b  => if b then "True" else "False"
  | .vInt n   => toString n
  | .vStr s   => "'" ++ s ++ "'"
  | .vList xs => "[" ++ pyReprList xs ++ "]"
  | .vDict xs => "\x7b" ++ pyReprDict xs ++ "\x7d"

def pyReprList : List Value → String
  | []      => ""
  | [v]     => pyRepr v
  | v :: vs => pyRepr v ++ ", " ++ pyReprList vs

def pyReprDict : List (String × Value) → String
  | []           => ""
  | [(k, v)]     => "'" ++ k ++ "': " ++ pyRepr v
  | (k, v) :: vs => "'" ++ k ++ "': " ++ pyRepr v ++ ", " ++ pyReprDict vs

end

/-- Python `str(v)`: identity on strings, `repr`-like otherwise. -/
def pyStr : Value → String
  | .vStr s => s
  | v       => pyRepr v

/-- Decimal digits of a string as a number, `none` on a non-digit;
the empty list is rejected by the callers. -/
def digitsToNat? : List Char → Option Nat
  | []      => some 0
  | c :: cs =>
    if c.isDigit then
      (digitsToNat? cs).map (fun n => (c.toNat - 48) * 10 ^ cs.length + n)
    else none

/-- Python `int(s)` on a string: optional surrounding whitespace, optional
sign, then decimal digits (digit-group underscores are not modelled). -/
def pyParseIntStr (s : String) : Option Int :=
  match (pyStrip s).data with
  | []          => none
  | '+' :: rest => if rest = [] then none else (digitsToNat? rest).map Int.ofNat
  | '-' :: rest => if rest = [] then none else (digitsToNat? rest).map (fun n => -(n : Int))
  | cs          => (digitsToNat? cs).map Int.ofNat

/-- Python `int(v)`: ints pass through, bools coerce to 0/1, strings are
parsed; everything else raises `TypeError`/`ValueError`, modelled as
`none` (the call sites catch exactly those exceptions). -/
def pyToInt : Value → Option Int
  | .vInt n  => some n
  | .vBool b => some (if b then 1 else 0)
  | .vStr s  => pyParseIntStr s
  | _        => none

/-- A timestamp as stored in `db.DateTime` columns. -/
structure DateTime where
  year   : Nat
  month  : Nat
  day    : Nat
  hour   : Nat
  minute : Nat
  second : Nat
deriving Repr, DecidableEq

/-- Injective key realizing the field-lexicographic order of in-range
datetimes, used for `datetime` comparison. -/
def DateTime.key (d : DateTime) : Nat :=
  ((((d.year * 13 + d.month) * 32 + d.day) * 24 + d.hour) * 60 + d.minute) * 60 + d.second

/-- `a < b` on datetimes. -/
def DateTime.ltb (a b : DateTime) : Bool :=
  a.key < b.key

def digit2? (a b : Char) : Option Nat :=
  if a.isDigit && b.isDigit then some ((a.toNat - 48) * 10 + (b.toNat - 48)) else none

def digit4? (a b c d : Char) : Option Nat :=
  if a.isDigit && b.isDigit && c.isDigit && d.isDigit then
    some ((a.toNat - 48) * 1000 + (b.toNat - 48) * 100 + (c.toNat - 48) * 10 + (d.toNat - 48))
  else none

def mkDateTime? (y mo d h mi s : Nat) : Option DateTime :=
  if 1 ≤ y && 1 ≤ mo && mo ≤ 12 && 1 ≤ d && d ≤ 31 && h ≤ 23 && mi ≤ 59 && s ≤ 59 then
    some ⟨y, mo, d, h, mi, s⟩
  else none

/-- CPython's `datetime.fromisoformat` restricted to the shapes the
callers exchange: `YYYY-MM-DD` and `YYYY-MM-DDTHH:MM:SS` with range
checks (day-in-month precision and fractional seconds are not
modelled); every other shape is a parse failure. -/
def fromisoformat (s : String) : Option DateTime :=
  match s.data with
  | [y1, y2, y3, y4, '-', m1, m2, '-', d1, d2] =>
    match digit4? y1 y2 y3 y4, digit2? m1 m2, digit2? d1 d2 with
    | some y, some mo, some d => mkDateTime? y mo d 0 0 0
    | _, _, _ => none
  | [y1, y2, y3, y4, '-', m1, m2, '-', d1, d2, 'T', h1, h2, ':', n1, n2, ':', s1, s2] =>
    match digit4? y1 y2 y3 y4, digit2? m1 m2, digit2? d1 d2,
          digit2? h1 h2, digit2? n1 n2, digit2? s1 s2 with
    | some y, some mo, some d, some h, some mi, some sec => mkDateTime? y mo d h mi sec
    | _, _, _, _, _, _ => none
  | _ => none

def pad2 (n : Nat) : String :=
  if n < 10 then "0" ++ toString n else toString n

def pad4 (n : Nat) : String :=
  if n < 10 then "000" ++ toString n
  else if n < 100 then "00" ++ toString n
  else if n < 1000 then "0" ++ toString n
  else toString n

/-- `datetime.isoformat()` (zero microseconds, no timezone). -/
def DateTime.iso (d : DateTime) : String :=
  pad4 d.year ++ "-" ++ pad2 d.month ++ "-" ++ pad2 d.day ++ "T" ++
    pad2 d.hour ++ ":" ++ pad2 d.minute ++ ":" ++ pad2 d.second

/-- A row of the `task` table together with its relationship state
(`models.py`): the dependency edge sets are kept as id lists, matching
what the `task_dependencies` association rows store. -/
structure Task where
  id               : Int
  title            : String
  description      : String
  due_date         : Option DateTime
  start_date       : Option DateTime
  priority         : Value
  recurrence       : Value
  completed        : Bool
  user_id          : Int
  project_id       : Option Int
  parent_id        : Option Int
  created_at       : DateTime
  updated_at       : DateTime
  reminder_time    : Option DateTime
  reminder_enabled : Bool
  blocked_by       : List Int
  blocking         : List Int

/-- A row of the `project` table (`models.py`). -/
structure Project where
  id          : Int
  name        : String
  description : String
  user_id     : Int
  created_at  : DateTime
  updated_at  : DateTime
deriving Repr, DecidableEq

/-- The persisted store the validators' lookups read. -/
structure DB where
  tasks    : List Task
  projects : List Project

/-- `Task.query.filter_by(id=i, user_id=u).first()`. -/
def findTaskBy (db : DB) (i u : Int) : Option Task :=
  db.tasks.find? (fun t => t.id == i && t.user_id == u)

/-- `Project.query.filter_by(id=i, user_id=u).first()`. -/
def findProjectBy (db : DB) (i u : Int) : Option Project :=
  db.projects.find? (fun p => p.id == i && p.user_id == u)

/-- Outcome of the create-path extractor: either a validation message
(the `(None, err)` convention of the helpers) or an uncaught exception
(`description.strip()` on a truthy non-string raises `AttributeError`,
which no caller catches). -/
inductive VErr where
  | msg (s : String)
  | typeError
deriving Repr, DecidableEq

/-- `validate_title` (`task_helpers.py`): requires a string that is
non-empty after `strip()` and at most 255 characters once stripped. -/
def validate_title (data : Data) : Except String String :=
  match data.get "title" (.vStr "") with
  | .vStr s =>
    if pyStrip s = "" then .error "Title is required."
    else if (pyStrip s).length > 255 then .error "Title must be 255 characters or less."
    else .ok (pyStrip s)
  | _ => .error "Title is required."

/-- `validate_project_id` (`user_helpers.py` / `utils.py`): `None` passes
through, the value must coerce with `int(...)`, and the ownership lookup
runs only when a (truthy) user was supplied. -/
def validate_project_id (db : DB) (data : Data) (user : Option Int) :
    Except String (Option Int) :=
  match data.get? "project_id" with
  | none => .ok none
  | some v =>
    match v with
    | .vNull => .ok none
    | _ =>
      match pyToInt v with
      | none => .error "Invalid project ID"
      | some n =>
        match user with
        | none => .ok (some n)
        | some uid =>
          if (findProjectBy db n uid).isSome then .ok (some n)
          else .error "Invalid project ID"

/-- `validate_parent_id` (`user_helpers.py`): like the project check but
the ownership lookup is unconditional. -/
def validate_parent_id (db : DB) (data : Data) (user : Int) :
    Except String (Option Int) :=
  match data.get? "parent_id" with
  | none => .ok none
  | some v =>
    match v with
    | .vNull => .ok none
    | _ =>
      match pyToInt v with
      | none => .error "Invalid parent task ID"
      | some n =>
        if (findTaskBy db n user).isSome then .ok (some n)
        else .error "Invalid parent task ID"

/-- `parse_date` (`task_helpers.py`): falsy input means "no date"; a
truthy value must be a parsable ISO string (`fromisoformat` on a
non-string raises, caught by the bare `except`). -/
def parse_date (v : Value) (field_name : String) : Except String (Option DateTime) :=
  if !v.truthy then .ok none
  else
    match v with
    | .vStr s =>
      match fromisoformat s with
      | some dt => .ok (some dt)
      | none => .error ("Invalid " ++ field_name ++ " format")
    | _ => .error ("Invalid " ++ field_name ++ " format")

/-- The field dict returned by `_extract_task_fields`; `priority` and
`recurrence` are passed through as raw values. -/
structure TaskFields where
  title       : String
  description : String
  project_id  : Option Int
  parent_id   : Option Int
  priority    : Value
  due_date    : Option DateTime
  start_date  : Option DateTime
  recurrence  : Value

/-- `description.strip() if description else ""` — the truthy non-string
case raises in Python, modelled as `none`. -/
def stripDesc (v : Value) : Option String :=
  if v.truthy then
    match v with
    | .vStr s => some (pyStrip s)
    | _ => none
  else some ""

/-- `start_date and due_date and start_date > due_date` (datetimes are
always truthy, so this is "both present and start after due"). -/
def startAfterDue : Option DateTime → Option DateTime → Bool
  | some s, some d => d.key < s.key
  | _, _ => false

/-- `_extract_task_fields` (`task_helpers.py`): the composite create-path
validator, in source order, short-circuiting on the first error. -/
def extract_task_fields (db : DB) (data : Data) (user : Int) : Except VErr TaskFields :=
  match validate_title data with
  | .error e => .error (.msg e)
  | .ok title =>
    let descv := data.get "description" (.vStr "")
    match validate_project_id db data (some user) with
    | .error e => .error (.msg e)
    | .ok project_id =>
      match validate_parent_id db data user with
      | .error e => .error (.msg e)
      | .ok parent_id =>
        let priority := data.get "priority" (.vInt 1)
        let recurrence := data.getN "recurrence"
        match parse_date (data.getN "due_date") "due_date" with
        | .error e => .error (.msg e)
        | .ok due_date =>
          match parse_date (data.getN "start_date") "start_date" with
          | .error e => .error (.msg e)
          | .ok start_date =>
            if startAfterDue start_date due_date then
              .error (.msg "start_date cannot be after due_date")
            else
              match stripDesc descv with
              | none => .error .typeError
              | some description =>
                .ok ⟨title, description, project_id, parent_id, priority,
                     due_date, start_date, recurrence⟩

/-- `Option Int` rendered as a JSON value (`None` becomes null). -/
def optIntV : Option Int → Value
  | none => .vNull
  | some n => .vInt n

/-- `_serialize_task` (`task_helpers.py`): the base dict in source order,
then the presence-conditional optional fields.  `task.blocked_by` and
`task.blocking` are dynamic relationship queries, which are always
truthy in Python, so the id list is emitted unconditionally. -/
def serialize_task (t : Task) : Data :=
  [("id", .vInt t.id),
   ("title", .vStr t.title),
   ("description", .vStr t.description),
   ("completed", .vBool t.completed),
   ("priority", t.priority),
   ("project_id", optIntV t.project_id),
   ("parent_id", optIntV t.parent_id),
   ("created_at", .vStr t.created_at.iso),
   ("updated_at", .vStr t.updated_at.iso),
   ("subtasks", .vList []),
   ("blocked_by", .vList (t.blocked_by.map .vInt)),
   ("blocking", .vList (t.blocking.map .vInt)),
   ("reminder_enabled", .vBool t.reminder_enabled)]
  ++ (match t.due_date with
      | some d => [("due_date", .vStr d.iso)]
      | none => [])
  ++ (match t.start_date with
      | some d => [("start_date", .vStr d.iso)]
      | none => [])
  ++ (if t.recurrence.truthy then [("recurrence", t.recurrence)] else [])
  ++ (match t.reminder_time with
      | some d => [("reminder_time", .vStr d.iso)]
      | none => [])

/-- `update_task_title` (`task_helpers.py`). -/
def update_task_title (data : Data) (t : Task) : Option String × Task :=
  match data.get? "title" with
  | none => (none, t)
  | some v =>
    match v with
    | .vStr s =>
      if pyStrip s = "" then (some "Task title is required", t)
      else if (pyStrip s).length > 255 then (some "Title must be 255 characters or less.", t)
      else (none, { t with title := pyStrip s })
    | _ => (some "Task title is required", t)

/-- `update_task_description`: a present non-null value is coerced with
`str(...)` and stripped; never fails. -/
def update_task_description (data : Data) (t : Task) : Option String × Task :=
  match data.get? "description" with
  | none => (none, t)
  | some .vNull => (none, t)
  | some v => (none, { t with description := pyStrip (pyStr v) })

/-- `update_task_completed`: `bool(...)` coercion, never fails. -/
def update_task_completed (data : Data) (t : Task) : Option String × Task :=
  match data.get? "completed" with
  | none => (none, t)
  | some v => (none, { t with completed := v.truthy })

/-- `update_task_priority`: `int(...)` coercion, `ValueError`/`TypeError`
becomes the error message. -/
def update_task_priority (data : Data) (t : Task) : Option String × Task :=
  match data.get? "priority" with
  | none => (none, t)
  | some v =>
    match pyToInt v with
    | none => (some "Invalid priority value.", t)
    | some n => (none, { t with priority := .vInt n })

/-- `update_task_project`: null clears the reference, otherwise the value
must coerce to an int naming a project owned by the user. -/
def update_task_project (db : DB) (data : Data) (user : Int) (t : Task) :
    Option String × Task :=
  match data.get? "project_id" with
  | none => (none, t)
  | some .vNull => (none, { t with project_id := none })
  | some v =>
    match pyToInt v with
    | none => (some "Invalid project ID", t)
    | some n =>
      if (findProjectBy db n user).isSome then (none, { t with project_id := some n })
      else (some "Invalid project ID", t)

/-- `update_task_due_date`: a falsy present value clears the date, a
truthy one must be a parsable ISO string. -/
def update_task_due_date (data : Data) (t : Task) : Option String × Task :=
  match data.get? "due_date" with
  | none => (none, t)
  | some v =>
    if v.truthy then
      match v with
      | .vStr s =>
        match fromisoformat s with
        | some dt => (none, { t with due_date := some dt })
        | none => (some "Invalid due_date format", t)
      | _ => (some "Invalid due_date format", t)
    else (none, { t with due_date := none })

/-- `update_task_start_date`: symmetric to the due-date updater. -/
def update_task_start_date (data : Data) (t : Task) : Option String × Task :=
  match data.get? "start_date" with
  | none => (none, t)
  | some v =>
    if v.truthy then
      match v with
      | .vStr s =>
        match fromisoformat s with
        | some dt => (none, { t with start_date := some dt })
        | none => (some "Invalid start_date format", t)
      | _ => (some "Invalid start_date format", t)
    else (none, { t with start_date := none })

/-- `update_task_recurrence`: raw passthrough, never fails. -/
def update_task_recurrence (data : Data) (t : Task) : Option String × Task :=
  match data.get? "recurrence" with
  | none => (none, t)
  | some v => (none, { t with recurrence := v })

/-- Numeric value of a Python int (bools included); only applied to
values satisfying `pyIsInt`. -/
def pyIntVal : Value → Int
  | .vInt n => n
  | .vBool b => if b then 1 else 0
  | _ => 0

/-- The element loop shared by `update_task_blocked_by` and
`update_task_blocking`: the first offending element decides the error;
on success the resolved tasks' ids (equal to the submitted ids) are
collected in order. -/
def collectDeps (db : DB) (user : Int) (selfId : Int)
    (invalid notFound : String) : List Value → Except String (List Int)
  | [] => .ok []
  | v :: rest =>
    if pyIsInt v then
      match findTaskBy db (pyIntVal v) user with
      | none => .error (notFound ++ pyStr v)
      | some u =>
        if u.id == selfId then .error "Task cannot block itself"
        else (collectDeps db user selfId invalid notFound rest).map (fun ids => u.id :: ids)
    else .error (invalid ++ pyStr v)

/-- `update_task_blocked_by`: full replace of the incoming dependency
edge set. -/
def update_task_blocked_by (db : DB) (data : Data) (user : Int) (t : Task) :
    Option String × Task :=
  match data.get? "blocked_by" with
  | none => (none, t)
  | some .vNull => (none, { t with blocked_by := [] })
  | some (.vList xs) =>
    match collectDeps db user t.id "Invalid blocking task ID: " "Blocking task not found: " xs with
    | .error e => (some e, t)
    | .ok ids => (none, { t with blocked_by := ids })
  | some _ => (some "blocked_by must be a list of task IDs", t)

/-- `update_task_blocking`: full replace of the outgoing dependency edge
set. -/
def update_task_blocking (db : DB) (data : Data) (user : Int) (t : Task) :
    Option String × Task :=
  match data.get? "blocking" with
  | none => (none, t)
  | some .vNull => (none, { t with blocking := [] })
  | some (.vList xs) =>
    match collectDeps db user t.id "Invalid blocked task ID: " "Blocked task not found: " xs with
    | .error e => (some e, t)
    | .ok ids => (none, { t with blocking := ids })
  | some _ => (some "blocking must be a list of task IDs", t)

/-- `update_task_reminder_enabled`: strict `isinstance(..., bool)`. -/
def update_task_reminder_enabled (data : Data) (t : Task) : Option String × Task :=
  match data.get? "reminder_enabled" with
  | none => (none, t)
  | some (.vBool b) => (none, { t with reminder_enabled := b })
  | some _ => (some "reminder_enabled must be a boolean", t)

/-- `update_task_reminder_time`: null clears, a string must parse. -/
def update_task_reminder_time (data : Data) (t : Task) : Option String × Task :=
  match data.get? "reminder_time" with
  | none => (none, t)
  | some .vNull => (none, { t with reminder_time := none })
  | some (.vStr s) =>
    match fromisoformat s with
    | some dt => (none, { t with reminder_time := some dt })
    | none => (some "Invalid reminder_time format", t)
  | some _ => (some "reminder_time must be a valid ISO datetime string", t)

/-- `filter_by(id=v, ...)` against a raw JSON value: comparison goes
through the column's integer affinity, so numeric-looking values match
their numeric id and everything else matches nothing. -/
def idMatches (v : Value) (i : Int) : Bool :=
  match pyToInt v with
  | some n => n == i
  | none => false

/-- Replace the first list element satisfying `p` (the `.first()` row of
the query) by its image under `f`. -/
def updateFirstWhere (p : Task → Bool) (f : Task → Task) : List Task → List Task
  | [] => []
  | t :: ts => if p t then f t :: ts else t :: updateFirstWhere p f ts

/-- One entry of the `subtasks` list in `update_task_subtasks`: dict
entries carrying an `id` update `title` and `completed` of the matching
owned subtask; everything else is skipped. -/
def applySubtaskEntry (user : Int) (parentId : Int) (tasks : List Task) (v : Value) :
    List Task :=
  match v with
  | .vDict d =>
    match Data.get? d "id" with
    | none => tasks
    | some idv =>
      updateFirstWhere
        (fun s => idMatches idv s.id && s.user_id == user && s.parent_id == some parentId)
        (fun s =>
          let s1 := match Data.get? d "title" with
            | none => s
            | some tv => { s with title := pyStrip (pyStr tv) }
          match Data.get? d "completed" with
          | none => s1
          | some cv => { s1 with completed := cv.truthy })
        tasks
  | _ => tasks

/-- `update_task_subtasks`: null re-parents all direct subtasks to the
root, a list updates existing subtasks in place; only the store changes,
never the task itself. -/
def update_task_subtasks (db : DB) (data : Data) (user : Int) (t : Task) :
    Option String × DB :=
  match data.get? "subtasks" with
  | none => (none, db)
  | some .vNull =>
    (none, { db with tasks := db.tasks.map (fun s =>
        if s.parent_id == some t.id then { s with parent_id := none } else s) })
  | some (.vList xs) =>
    (none, { db with tasks := xs.foldl (fun ts v => applySubtaskEntry user t.id ts v) db.tasks })
  | some _ => (some "subtasks must be a list", db)

/-- The in-memory state one update call mutates: the fetched task object
plus the session-visible store the validators query. -/
structure St where
  task : Task
  db   : DB

/-- One entry of the updater lambda list in
`_validate_and_update_task_fields`. -/
def Updater := St → Option String × St

/-- Lift a task-only updater over the state. -/
def liftT (f : Task → Option String × Task) : Updater :=
  fun st => let r := f st.task; (r.1, ⟨r.2, st.db⟩)

/-- The lambda list of `_validate_and_update_task_fields`, in source
order. -/
def updatersOf (data : Data) (user : Int) : List Updater :=
  [liftT (update_task_title data),
   liftT (update_task_description data),
   liftT (update_task_completed data),
   liftT (update_task_priority data),
   fun st => let r := update_task_project st.db data user st.task; (r.1, ⟨r.2, st.db⟩),
   liftT (update_task_due_date data),
   liftT (update_task_start_date data),
   liftT (update_task_recurrence data),
   fun st => let r := update_task_blocked_by st.db data user st.task; (r.1, ⟨r.2, st.db⟩),
   fun st => let r := update_task_blocking st.db data user st.task; (r.1, ⟨r.2, st.db⟩),
   liftT (update_task_reminder_enabled data),
   liftT (update_task_reminder_time data),
   fun st => let r := update_task_subtasks st.db data user st.task; (r.1, ⟨st.task, r.2⟩)]

/-- The `for updater in [...]` loop: run in order, stop at the first
error. -/
def runUpdaters : List Updater → St → Option String × St
  | [], st => (none, st)
  | u :: us, st =>
    match u st with
    | (some e, st') => (some e, st')
    | (none, st') => runUpdaters us st'

/-- `_validate_dates`. -/
def validate_dates (s d : Option DateTime) : Option String :=
  if startAfterDue s d then some "start_date cannot be after due_date" else none

/-- `_validate_and_update_task_fields` (`task_helpers.py`): the update
pipeline followed by the cross-field date check on the task's final
state. -/
def validate_and_update_task_fields (data : Data) (user : Int) (st : St) :
    Option String × St :=
  match runUpdaters (updatersOf data user) st with
  | (some e, st') => (some e, st')
  | (none, st') => (validate_dates st'.task.start_date st'.task.due_date, st')

/-- Ids of the tasks directly owned by project `pid` (the
`Project.tasks` collection). -/
def projectTaskIds (tasks : List Task) (pid : Int) : List Int :=
  (tasks.filter (fun t => t.project_id == some pid)).map (fun t => t.id)

/-- Close a set of doomed task ids under the `subtasks` relationship
(`cascade="all, delete-orphan"` on `Task.subtasks` re-triggers per
deleted task); the fuel bounds the iteration by the store size. -/
def subtaskClosure (tasks : List Task) : List Int → Nat → List Int
  | acc, 0 => acc
  | acc, n + 1 =>
    let more := (tasks.filter (fun t =>
        !acc.contains t.id &&
        (match t.parent_id with
         | some p => acc.contains p
         | none => false))).map (fun t => t.id)
    if more.isEmpty then acc else subtaskClosure tasks (acc ++ more) n

/-- `delete_project` (`routes/projects.py`) under the semantics of
`db.session.delete(project)`: `Project.tasks` carries
`cascade="all, delete-orphan"` (`models.py`), so the ORM deletes every
task of the project (the column-level `ondelete="SET NULL"` applies only
to deletes the session never sees), each deleted task cascades into its
subtasks, and the `ondelete="CASCADE"` on `task_dependencies` drops edge
rows naming a deleted task. -/
def delete_project (db : DB) (project_id : Int) (user : Int) : Except String DB :=
  match db.projects.find? (fun p => p.id == project_id) with
  | none => .error "Project not found"
  | some p =>
    if p.user_id != user then .error "Not authorized"
    else
      let doomed := subtaskClosure db.tasks (projectTaskIds db.tasks project_id) db.tasks.length
      .ok { tasks := (db.tasks.filter (fun t => !doomed.contains t.id)).map
              (fun t => { t with
                blocked_by := t.blocked_by.filter (fun i => !doomed.contains i),
                blocking := t.blocking.filter (fun i => !doomed.contains i) }),
            projects := db.projects.filter (fun q => q.id != project_id) }

/-- Dict assignment `d[k] = v` on the serialized output. -/
def setKey : Data → String → Value → Data
  | [], k, v => [(k, v)]
  | (k', w) :: rest, k, v =>
    if k' = k then (k, v) :: rest else (k', w) :: setKey rest k v

/-- The `task.subtasks` relationship rows. -/
def subtasksOf (db : DB) (t : Task) : List Task :=
  db.tasks.filter (fun s => s.parent_id == some t.id)

/-- `get_task` (`routes/tasks.py`): 404 `Task not found` when no task
with this id is owned by the user, otherwise the serialized dict with
`subtasks` filled in. -/
def get_task (db : DB) (task_id : Int) (user : Int) : Except String Data :=
  match findTaskBy db task_id user with
  | none => .error "Task not found"
  | some t =>
    .ok (setKey (serialize_task t) "subtasks"
          (.vList ((subtasksOf db t).map (fun s => .vDict (serialize_task s)))))

/-- The attributes of the flask-sqlalchemy pagination object the list
routes read. -/
structure PageResult (α : Type) where
  items    : List α
  total    : Nat
  pages    : Nat
  page     : Int
  per_page : Int

/-- Modelled from the spec: the library call
`query.paginate(page=..., per_page=..., error_out=False)` is
flask-sqlalchemy code outside this repository; per §4.5 and the library
contract it slices by offset/limit, computes `pages` as the ceiling of
`total / per_page`, corrects a sub-1 page to 1 instead of erroring, and
returns an empty item list (not an error) for a page past the end. -/
def paginate {α : Type} (items : List α) (page per_page : Int) : PageResult α :=
  let ppn : Nat := per_page.toNat
  let pn : Nat := if page < 1 then 1 else page.toNat
  let total := items.length
  { items := (items.drop ((pn - 1) * ppn)).take ppn,
    total := total,
    pages := if ppn = 0 then 0 else (total + ppn - 1) / ppn,
    page := (pn : Int),
    per_page := per_page }

/-- The current user's task rows, as queried by `list_tasks`
(the `order_by(created_at desc)` reordering is not modelled; it permutes
`items` only). -/
def user_tasks (db : DB) (user : Int) : List Task :=
  db.tasks.filter (fun t => t.user_id == user)

/-- The pagination core of `list_tasks` (`routes/tasks.py`):
`per_page = max(1, min(per_page, 100))`, then paginate the user's task
query. -/
def list_tasks_page (db : DB) (user : Int) (page per_page : Int) : PageResult Task :=
  paginate (user_tasks db user) page (max 1 (min per_page 100))

/-- Outcome of one per-field updater, seen from the outside: leave the
field alone, reject with a message, or overwrite the field. -/
inductive Plan (α : Type) where
  | skip
  | fail (e : String)
  | write (w : α)

/-- The value a plan leaves in the field. -/
def wOf {α : Type} : Plan α → α → α
  | .skip, x => x
  | .fail _, x => x
  | .write w, _ => w

/-- Whether a plan rejects. -/
def Plan.isFail {α : Type} : Plan α → Bool
  | .fail _ => true
  | _ => false

/-- Normal form of `update_task_title`. -/
def planTitle (data : Data) : Plan String :=
  match data.get? "title" with
  | none => .skip
  | some (.vStr s) =>
    if pyStrip s = "" then .fail "Task title is required"
    else if (pyStrip s).length > 255 then .fail "Title must be 255 characters or less."
    else .write (pyStrip s)
  | some _ => .fail "Task title is required"

/-- Normal form of `update_task_description`. -/
def planDesc (data : Data) : Plan String :=
  match data.get? "description" with
  | none => .skip
  | some .vNull => .skip
  | some v => .write (pyStrip (pyStr v))

/-- Normal form of `update_task_completed`. -/
def planCompleted (data : Data) : Plan Bool :=
  match data.get? "completed" with
  | none => .skip
  | some v => .write v.truthy

/-- Normal form of `update_task_priority`. -/
def planPriority (data : Data) : Plan Value :=
  match data.get? "priority" with
  | none => .skip
  | some v =>
    match pyToInt v with
    | none => .fail "Invalid priority value."
    | some n => .write (.vInt n)

/-- Normal form of `update_task_project`. -/
def planProject (db : DB) (data : Data) (user : Int) : Plan (Option Int) :=
  match data.get? "project_id" with
  | none => .skip
  | some .vNull => .write none
  | some v =>
    match pyToInt v with
    | none => .fail "Invalid project ID"
    | some n =>
      if (findProjectBy db n user).isSome then .write (some n)
      else .fail "Invalid project ID"

/-- Normal form of `update_task_due_date`. -/
def planDue (data : Data) : Plan (Option DateTime) :=
  match data.get? "due_date" with
  | none => .skip
  | some v =>
    if v.truthy then
      match v with
      | .vStr s =>
        match fromisoformat s with
        | some dt => .write (some dt)
        | none => .fail "Invalid due_date format"
      | _ => .fail "Invalid due_date format"
    else .write none

/-- Normal form of `update_task_start_date`. -/
def planStart (data : Data) : Plan (Option DateTime) :=
  match data.get? "start_date" with
  | none => .skip
  | some v =>
    if v.truthy then
      match v with
      | .vStr s =>
        match fromisoformat s with
        | some dt => .write (some dt)
        | none => .fail "Invalid start_date format"
      | _ => .fail "Invalid start_date format"
    else .write none

/-- Normal form of `update_task_recurrence`. -/
def planRecurrence (data : Data) : Plan Value :=
  match data.get? "recurrence" with
  | none => .skip
  | some v => .write v

/-- Normal form of `update_task_blocked_by`. -/
def planBlockedBy (db : DB) (data : Data) (user selfId : Int) : Plan (List Int) :=
  match data.get? "blocked_by" with
  | none => .skip
  | some .vNull => .write []
  | some (.vList xs) =>
    match collectDeps db user selfId "Invalid blocking task ID: " "Blocking task not found: " xs with
    | .error e => .fail e
    | .ok ids => .write ids
  | some _ => .fail "blocked_by must be a list of task IDs"

/-- Normal form of `update_task_blocking`. -/
def planBlocking (db : DB) (data : Data) (user selfId : Int) : Plan (List Int) :=
  match data.get? "blocking" with
  | none => .skip
  | some .vNull => .write []
  | some (.vList xs) =>
    match collectDeps db user selfId "Invalid blocked task ID: " "Blocked task not found: " xs with
    | .error e => .fail e
    | .ok ids => .write ids
  | some _ => .fail "blocking must be a list of task IDs"

/-- Normal form of `update_task_reminder_enabled`. -/
def planRemEnabled (data : Data) : Plan Bool :=
  match data.get? "reminder_enabled" with
  | none => .skip
  | some (.vBool b) => .write b
  | some _ => .fail "reminder_enabled must be a boolean"

/-- Normal form of `update_task_reminder_time`. -/
def planRemTime (data : Data) : Plan (Option DateTime) :=
  match data.get? "reminder_time" with
  | none => .skip
  | some .vNull => .write none
  | some (.vStr s) =>
    match fromisoformat s with
    | some dt => .write (some dt)
    | none => .fail "Invalid reminder_time format"
  | some _ => .fail "reminder_time must be a valid ISO datetime string"

/-- The store transformation of the non-failing branches of
`update_task_subtasks`. -/
def subtasksApply (db : DB) (data : Data) (user tid : Int) : DB :=
  match data.get? "subtasks" with
  | none => db
  | some .vNull =>
    { db with tasks := db.tasks.map (fun s =>
        if s.parent_id == some tid then { s with parent_id := none } else s) }
  | some (.vList xs) =>
    { db with tasks := xs.foldl (fun ts v => applySubtaskEntry user tid ts v) db.tasks }
  | some _ => db

/-- Whether the `subtasks` value has an acceptable shape. -/
def subtasksShapeOk (data : Data) : Bool :=
  match data.get? "subtasks" with
  | none => true
  | some .vNull => true
  | some (.vList _) => true
  | some _ => false

/-- The task the update pipeline leaves behind on success: every field
overwritten by its validator's plan, the rest untouched. -/
def applyPlans (db : DB) (data : Data) (user : Int) (t : Task) : Task :=
  { t with
    title := wOf (planTitle data) t.title,
    description := wOf (planDesc data) t.description,
    completed := wOf (planCompleted data) t.completed,
    priority := wOf (planPriority data) t.priority,
    project_id := wOf (planProject db data user) t.project_id,
    due_date := wOf (planDue data) t.due_date,
    start_date := wOf (planStart data) t.start_date,
    recurrence := wOf (planRecurrence data) t.recurrence,
    blocked_by := wOf (planBlockedBy db data user t.id) t.blocked_by,
    blocking := wOf (planBlocking db data user t.id) t.blocking,
    reminder_enabled := wOf (planRemEnabled data) t.reminder_enabled,
    reminder_time := wOf (planRemTime data) t.reminder_time }

/-- Concrete sample timestamp. -/
def dtJan : DateTime := ⟨2025, 7, 1, 10, 0, 0⟩

/-- Concrete sample task used by witnesses. -/
def baseTask : Task :=
  { id := 1, title := "t", description := "", due_date := none, start_date := none,
    priority := .vInt 1, recurrence := .vNull, completed := false, user_id := 1,
    project_id := none, parent_id := none, created_at := dtJan, updated_at := dtJan,
    reminder_time := none, reminder_enabled := true, blocked_by := [], blocking := [] }

/-- A task whose `recurrence` is set to the empty string (reachable via
`update_task_recurrence`, which stores the raw value). -/
def taskRec : Task := { baseTask with recurrence := .vStr "" }

/-- Empty store. -/
def db0 : DB := ⟨[], []⟩

/-- Concrete sample project. -/
def projA : Project := ⟨1, "p", "", 1, dtJan, dtJan⟩

/-- A task filed under `projA`. -/
def taskInP : Task := { baseTask with id := 2, project_id := some 1 }

/-- Store containing `projA` and its task. -/
def dbC1 : DB := ⟨[taskInP], [projA]⟩

/-- One-task store for the pagination scenario. -/
def dbE : DB := ⟨[baseTask], []⟩

/-- A task with a due date set. -/
def taskDue : Task := { baseTask with due_date := some dtJan }

/-- A second task of the same owner. -/
def taskB : Task := { baseTask with id := 2 }

/-- Store with two tasks of owner 1. -/
def db3 : DB := ⟨[baseTask, taskB], []⟩

/-- An element passes the dependency loop when it is a Python int whose
id resolves to a task of this owner and differs from the task's own id. -/
def GoodDep (db : DB) (owner selfId : Int) (v : Value) : Prop :=
  pyIsInt v = true ∧ (findTaskBy db (pyIntVal v) owner).isSome = true ∧
    pyIntVal v ≠ selfId


theorem findTaskBy_eq_some {db : DB} {i u : Int} {t : Task}
    (h : findTaskBy db i u = some t) : t.id = i ∧ t.user_id = u := by
  have := List.find?_some h
  simpa [Bool.and_eq_true, beq_iff_eq] using this

theorem runUpdaters_append (us1 us2 : List Updater) (st : St) :
    runUpdaters (us1 ++ us2) st =
      match runUpdaters us1 st with
      | (some e, st') => (some e, st')
      | (none, st') => runUpdaters us2 st' := by
  induction us1 generalizing st with
  | nil => simp [runUpdaters]
  | cons u us ih =>
    simp only [List.cons_append, runUpdaters]
    rcases h : u st with ⟨e, st'⟩
    cases e
    · simpa using ih st'
    · rfl

/-- C8: a create input whose title is missing, not a string, or empty
after trimming fails with the title-required error; a trimmed title over
255 characters fails with the too-long error; otherwise the validated
(and extracted) title is exactly the input stripped of surrounding
whitespace. -/
theorem C8_title_trimming (db : DB) (data : Data) (user : Int) :
    (data.get? "title" = none → validate_title data = .error "Title is required.") ∧
    (∀ v, data.get? "title" = some v →
      (match v with | .vStr _ => False | _ => True) →
      validate_title data = .error "Title is required.") ∧
    (∀ s, data.get? "title" = some (.vStr s) → pyStrip s = "" →
      validate_title data = .error "Title is required.") ∧
    (∀ s, data.get? "title" = some (.vStr s) → (pyStrip s).length > 255 →
      validate_title data = .error "Title must be 255 characters or less.") ∧
    (∀ s, data.get? "title" = some (.vStr s) → pyStrip s ≠ "" → (pyStrip s).length ≤ 255 →
      validate_title data = .ok (pyStrip s)) ∧
    (∀ s f, data.get? "title" = some (.vStr s) →
      extract_task_fields db data user = .ok f → f.title = pyStrip s) := by
  refine ⟨?_, ?_, ?_, ?_, ?_, ?_⟩
  · intro h
    simp [validate_title, Data.get, h, pyStrip]
  · intro v hv hns
    cases v <;> simp_all [validate_title, Data.get]
  · intro s hv he
    simp [validate_title, Data.get, hv, he]
  · intro s hv hl
    have hne : pyStrip s ≠ "" := by
      intro h
      rw [h] at hl
      simp at hl
    simp [validate_title, Data.get, hv, hne, hl]
  · intro s hv hne hle
    simp [validate_title, Data.get, hv, hne]
    omega
  · intro s f hv hex
    have hval : validate_title data = .ok (pyStrip s) ∨
        (∃ e, validate_title data = .error e) := by
      simp only [validate_title, Data.get, hv, Option.getD]
      split
      · right; exact ⟨_, rfl⟩
      · split
        · right; exact ⟨_, rfl⟩
        · left; rfl
    rcases hval with hval | ⟨e, hval⟩
    · rcases hpj : validate_project_id db data (some user) with e | pj
      · simp only [extract_task_fields, hval, hpj] at hex
        exact Except.noConfusion hex
      rcases hpr : validate_parent_id db data user with e | pr
      · simp only [extract_task_fields, hval, hpj, hpr] at hex
        exact Except.noConfusion hex
      rcases hdd : parse_date (data.getN "due_date") "due_date" with e | dd
      · simp only [extract_task_fields, hval, hpj, hpr, hdd] at hex
        exact Except.noConfusion hex
      rcases hsd : parse_date (data.getN "start_date") "start_date" with e | sd
      · simp only [extract_task_fields, hval, hpj, hpr, hdd, hsd] at hex
        exact Except.noConfusion hex
      simp only [extract_task_fields, hval, hpj, hpr, hdd, hsd] at hex
      split at hex
      · exact Except.noConfusion hex
      rcases hds : stripDesc (data.get "description" (.vStr "")) with _ | d <;> rw [hds] at hex
      · exact Except.noConfusion hex
      · cases hex
        rfl
    · simp only [extract_task_fields, hval] at hex
      exact Except.noConfusion hex

/-- Witness for C8: creating with title `"  Pay bills "` validates and
extracts exactly `"Pay bills"`. -/
theorem C8_title_trimming_witness :
    validate_title [("title", .vStr "  Pay bills ")] = .ok "Pay bills" ∧
    ∀ f, extract_task_fields db0 [("title", .vStr "  Pay bills ")] 1 = .ok f →
      f.title = pyStrip "  Pay bills " :=
  ⟨by
    have h := (C8_title_trimming db0 [("title", .vStr "  Pay bills ")] 1).2.2.2.2.1
      "  Pay bills " rfl (by decide) (by decide)
    simpa using h,
   fun f hf =>
    (C8_title_trimming db0 [("title", .vStr "  Pay bills ")] 1).2.2.2.2.2
      "  Pay bills " f rfl hf⟩

/-- C10: when the create-path project validator is called with a null
owner, any `project_id` that coerces to an integer is returned as valid
with no existence or ownership lookup (the store is universally
quantified and unused); with a non-null owner the same input is rejected
unless the project exists for that owner. -/
theorem C10_null_owner_skips_lookup (db : DB) (data : Data) (v : Value) (n : Int)
    (hv : data.get? "project_id" = some v) (hn : pyToInt v = some n) :
    validate_project_id db data none = .ok (some n) ∧
    (∀ uid, (findProjectBy db n uid).isSome = false →
      validate_project_id db data (some uid) = .error "Invalid project ID") := by
  constructor
  · unfold validate_project_id
    rw [hv]
    cases v <;> simp_all [pyToInt]
  · intro uid hno
    unfold validate_project_id
    rw [hv]
    cases v <;> simp_all [pyToInt]

/-- Witness for C10 at `project_id = "7"` over the empty store. -/
theorem C10_null_owner_skips_lookup_witness :
    validate_project_id db0 [("project_id", .vStr "7")] none = .ok (some 7) ∧
    validate_project_id db0 [("project_id", .vStr "7")] (some 1) =
      .error "Invalid project ID" :=
  ⟨(C10_null_owner_skips_lookup db0 [("project_id", .vStr "7")] (.vStr "7") 7 rfl rfl).1,
   (C10_null_owner_skips_lookup db0 [("project_id", .vStr "7")] (.vStr "7") 7 rfl rfl).2 1 rfl⟩

/-- C2: on the create path, extraction never succeeds with a start date
after the due date, and when the per-field validators pass but the two
parsed dates are both present and out of order the extractor rejects
with exactly `start_date cannot be after due_date`; on the update path a
successful run guarantees the invariant on the task's final state, even
when neither date key was part of the update. -/
theorem C2_start_not_after_due (db : DB) (data : Data) (user : Int) :
    (∀ f, extract_task_fields db data user = .ok f →
      startAfterDue f.start_date f.due_date = false) ∧
    (∀ tl pj pr dd sd, validate_title data = .ok tl →
      validate_project_id db data (some user) = .ok pj →
      validate_parent_id db data user = .ok pr →
      parse_date (data.getN "due_date") "due_date" = .ok dd →
      parse_date (data.getN "start_date") "start_date" = .ok sd →
      startAfterDue sd dd = true →
      extract_task_fields db data user = .error (.msg "start_date cannot be after due_date")) ∧
    (∀ st st', validate_and_update_task_fields data user st = (none, st') →
      startAfterDue st'.task.start_date st'.task.due_date = false) := by
  refine ⟨?_, ?_, ?_⟩
  · intro f hex
    rcases hval : validate_title data with e | tl
    · simp only [extract_task_fields, hval] at hex
      exact Except.noConfusion hex
    rcases hpj : validate_project_id db data (some user) with e | pj
    · simp only [extract_task_fields, hval, hpj] at hex
      exact Except.noConfusion hex
    rcases hpr : validate_parent_id db data user with e | pr
    · simp only [extract_task_fields, hval, hpj, hpr] at hex
      exact Except.noConfusion hex
    rcases hdd : parse_date (data.getN "due_date") "due_date" with e | dd
    · simp only [extract_task_fields, hval, hpj, hpr, hdd] at hex
      exact Except.noConfusion hex
    rcases hsd : parse_date (data.getN "start_date") "start_date" with e | sd
    · simp only [extract_task_fields, hval, hpj, hpr, hdd, hsd] at hex
      exact Except.noConfusion hex
    simp only [extract_task_fields, hval, hpj, hpr, hdd, hsd] at hex
    split at hex
    · exact Except.noConfusion hex
    · rcases hds : stripDesc (data.get "description" (.vStr "")) with _ | d <;> rw [hds] at hex
      · exact Except.noConfusion hex
      · cases hex
        try simp only []
        rename_i hcond
        simpa using hcond
  · intro tl pj pr dd sd hval hpj hpr hdd hsd hgt
    simp only [extract_task_fields, hval, hpj, hpr, hdd, hsd, hgt, if_true]
  · intro st st' h
    unfold validate_and_update_task_fields at h
    rcases hr : runUpdaters (updatersOf data user) st with ⟨e?, stm⟩
    rw [hr] at h
    cases e? with
    | some e => simp at h
    | none =>
      have h1 : validate_dates stm.task.start_date stm.task.due_date = none :=
        congrArg Prod.fst h
      have h2 : stm = st' := congrArg Prod.snd h
      subst h2
      unfold validate_dates at h1
      by_cases hb : startAfterDue stm.task.start_date stm.task.due_date = true
      · rw [if_pos hb] at h1
        exact Option.noConfusion h1
      · simpa using hb

/-- Scenario-B/F witness for C2: out-of-order dates are rejected on
create with the exact message, and a successful empty update preserves
the invariant. -/
theorem C2_start_not_after_due_witness :
    extract_task_fields db0
        [("title", .vStr "a"), ("due_date", .vStr "2025-07-01T10:00:00"),
         ("start_date", .vStr "2025-07-10T10:00:00")] 1 =
      .error (.msg "start_date cannot be after due_date") ∧
    startAfterDue (St.task (Prod.snd
        (validate_and_update_task_fields [] 1 ⟨baseTask, db0⟩))).start_date
      (St.task (Prod.snd
        (validate_and_update_task_fields [] 1 ⟨baseTask, db0⟩))).due_date = false :=
  ⟨(C2_start_not_after_due db0
      [("title", .vStr "a"), ("due_date", .vStr "2025-07-01T10:00:00"),
       ("start_date", .vStr "2025-07-10T10:00:00")] 1).2.1
      "a" none none (some ⟨2025, 7, 1, 10, 0, 0⟩) (some ⟨2025, 7, 10, 10, 0, 0⟩)
      rfl rfl rfl rfl rfl (by decide),
   (C2_start_not_after_due db0 [] 1).2.2 ⟨baseTask, db0⟩ _ rfl⟩

/-- C5: the update pipeline is the fixed updater list of
`updatersOf` (title, description, completed, priority, project,
due_date, start_date, recurrence, blocked_by, blocking,
reminder_enabled, reminder_time, subtasks); whenever a prefix succeeds
and the next updater fails, the whole pipeline returns exactly that
updater's message with the state as mutated so far — no later validator
runs or contributes, and no errors are aggregated. -/
theorem C5_first_error_wins (data : Data) (user : Int)
    (st st1 st2 : St) (us1 us2 : List Updater) (u : Updater) (e : String)
    (horder : updatersOf data user = us1 ++ u :: us2)
    (hpre : runUpdaters us1 st = (none, st1))
    (hfail : u st1 = (some e, st2)) :
    validate_and_update_task_fields data user st = (some e, st2) := by
  have hrun : runUpdaters (updatersOf data user) st = (some e, st2) := by
    rw [horder, runUpdaters_append, hpre]
    show runUpdaters (u :: us2) st1 = _
    simp [runUpdaters, hfail]
  unfold validate_and_update_task_fields
  rw [hrun]

/-- Witness for C5: an update with an invalid title and an invalid
priority reports only the title error (the first failing validator in
order) and leaves the task untouched. -/
theorem C5_first_error_wins_witness :
    validate_and_update_task_fields [("title", .vInt 5), ("priority", .vStr "x")] 1
        ⟨baseTask, db0⟩ =
      (some "Task title is required", ⟨baseTask, db0⟩) :=
  C5_first_error_wins [("title", .vInt 5), ("priority", .vStr "x")] 1
    ⟨baseTask, db0⟩ ⟨baseTask, db0⟩ ⟨baseTask, db0⟩
    [] (updatersOf [("title", .vInt 5), ("priority", .vStr "x")] 1).tail
    (liftT (update_task_title [("title", .vInt 5), ("priority", .vStr "x")]))
    "Task title is required" rfl rfl rfl

theorem le_ceil_mul {a b : Nat} (hb : 0 < b) : a ≤ ((a + b - 1) / b) * b := by
  rw [Nat.mul_comm]
  have h2 := Nat.div_add_mod (a + b - 1) b
  have h3 := Nat.mod_lt (a + b - 1) hb
  generalize b * ((a + b - 1) / b) = X at h2 ⊢
  generalize (a + b - 1) % b = r at h2 h3
  omega

theorem paginate_overrun {α : Type} (l : List α) (page per_page : Int)
    (hp : 1 ≤ page) (hpp : 1 ≤ per_page)
    (hbeyond : ((paginate l page per_page).pages : Int) < page) :
    (paginate l page per_page).items = [] ∧ (paginate l page per_page).page = page := by
  have hnlt : ¬ page < 1 := by omega
  have hppn : 0 < per_page.toNat := by omega
  have hpn : (page.toNat : Int) = page := Int.toNat_of_nonneg (by omega)
  simp only [paginate] at hbeyond ⊢
  simp only [if_neg hnlt]
  rw [if_neg (by omega : ¬ per_page.toNat = 0)] at hbeyond
  refine ⟨?_, hpn⟩
  have hpages : (l.length + per_page.toNat - 1) / per_page.toNat < page.toNat := by
    omega
  have hlen : l.length ≤ (page.toNat - 1) * per_page.toNat := by
    have h1 : l.length ≤ ((l.length + per_page.toNat - 1) / per_page.toNat) * per_page.toNat :=
      le_ceil_mul hppn
    have h2 : ((l.length + per_page.toNat - 1) / per_page.toNat) * per_page.toNat ≤
        (page.toNat - 1) * per_page.toNat :=
      Nat.mul_le_mul_right _ (by omega)
    exact h1.trans h2
  rw [List.drop_eq_nil_of_le hlen, List.take_nil]

/-- C7: `per_page` is clamped into `[1, 100]` before pagination (below 1
becomes 1, above 100 becomes 100, in-range passes through); a page past
the last page is not an error: it returns an empty item list with the
same `total` and `pages` as any other page and echoes the requested page
back. -/
theorem C7_pagination_clamp_and_overrun (db : DB) (user : Int) (page per_page : Int) :
    (1 ≤ (list_tasks_page db user page per_page).per_page ∧
      (list_tasks_page db user page per_page).per_page ≤ 100) ∧
    (per_page < 1 → (list_tasks_page db user page per_page).per_page = 1) ∧
    (100 < per_page → (list_tasks_page db user page per_page).per_page = 100) ∧
    (1 ≤ per_page → per_page ≤ 100 →
      (list_tasks_page db user page per_page).per_page = per_page) ∧
    (1 ≤ page → ((list_tasks_page db user page per_page).pages : Int) < page →
      (list_tasks_page db user page per_page).items = [] ∧
      (list_tasks_page db user page per_page).total = (user_tasks db user).length ∧
      (list_tasks_page db user page per_page).pages =
        (list_tasks_page db user 1 per_page).pages ∧
      (list_tasks_page db user page per_page).page = page) := by
  have hper : (list_tasks_page db user page per_page).per_page = max 1 (min per_page 100) :=
    rfl
  refine ⟨?_, ?_, ?_, ?_, ?_⟩
  · rw [hper, max_def, min_def]
    split_ifs <;> omega
  · intro h
    rw [hper, max_def, min_def]
    split_ifs <;> omega
  · intro h
    rw [hper, max_def, min_def]
    split_ifs <;> omega
  · intro h1 h2
    rw [hper, max_def, min_def]
    split_ifs <;> omega
  · intro hp hbeyond
    have hpp : 1 ≤ max 1 (min per_page 100) := le_max_left _ _
    have h := paginate_overrun (user_tasks db user) page (max 1 (min per_page 100)) hp hpp
      hbeyond
    exact ⟨h.1, rfl, rfl, h.2⟩

/-- Scenario-E witness for C7: page 100 of a 1-item collection with
`per_page = 1` yields no items, the unchanged totals, and the requested
page echoed back. -/
theorem C7_pagination_clamp_and_overrun_witness :
    (list_tasks_page dbE 1 100 1).items = [] ∧
    (list_tasks_page dbE 1 100 1).total = 1 ∧
    (list_tasks_page dbE 1 100 1).pages = 1 ∧
    (list_tasks_page dbE 1 100 1).page = 100 ∧
    (list_tasks_page dbE 1 100 1).per_page = 1 := by
  have h := (C7_pagination_clamp_and_overrun dbE 1 100 1).2.2.2.2 (by norm_num) (by decide)
  refine ⟨h.1, ?_, ?_, h.2.2.2, rfl⟩
  · rw [h.2.1]
    rfl
  · rw [h.2.2.1]
    rfl

/-- C6 counterexample: a task whose `recurrence` is set to the empty
string (reachable through `update_task_recurrence`) has the field set
yet `_serialize_task` omits the `recurrence` key, because the serializer
tests Python truthiness rather than presence. -/
theorem C6_counterexample_empty_recurrence :
    taskRec.recurrence ≠ .vNull ∧ Data.get? (serialize_task taskRec) "recurrence" = none :=
  ⟨fun h => Value.noConfusion h, rfl⟩

/-- C6 as amended: the serialized dict always carries the required keys
(timestamps in ISO form) and a `subtasks` list; `due_date`,
`start_date` and `reminder_time` are present iff set and never null;
`recurrence` is present iff set to a *truthy* value (a set-but-falsy
value, e.g. the empty string, is omitted) and never null. -/
theorem C6_serializer_key_contract (t : Task) :
    ((serialize_task t).get? "id" = some (.vInt t.id)) ∧
    ((serialize_task t).get? "title" = some (.vStr t.title)) ∧
    ((serialize_task t).get? "description" = some (.vStr t.description)) ∧
    ((serialize_task t).get? "completed" = some (.vBool t.completed)) ∧
    ((serialize_task t).get? "priority" = some t.priority) ∧
    ((serialize_task t).get? "project_id" = some (optIntV t.project_id)) ∧
    ((serialize_task t).get? "parent_id" = some (optIntV t.parent_id)) ∧
    ((serialize_task t).get? "created_at" = some (.vStr t.created_at.iso)) ∧
    ((serialize_task t).get? "updated_at" = some (.vStr t.updated_at.iso)) ∧
    ((serialize_task t).get? "subtasks" = some (.vList [])) ∧
    (∀ d, t.due_date = some d → (serialize_task t).get? "due_date" = some (.vStr d.iso)) ∧
    (t.due_date = none → (serialize_task t).get? "due_date" = none) ∧
    (∀ d, t.start_date = some d →
      (serialize_task t).get? "start_date" = some (.vStr d.iso)) ∧
    (t.start_date = none → (serialize_task t).get? "start_date" = none) ∧
    (∀ d, t.reminder_time = some d →
      (serialize_task t).get? "reminder_time" = some (.vStr d.iso)) ∧
    (t.reminder_time = none → (serialize_task t).get? "reminder_time" = none) ∧
    (t.recurrence.truthy = true → (serialize_task t).get? "recurrence" = some t.recurrence) ∧
    (t.recurrence.truthy = false → (serialize_task t).get? "recurrence" = none) ∧
    (∀ k, k ∈ ["due_date", "start_date", "recurrence", "reminder_time"] →
      (serialize_task t).get? k ≠ some .vNull) := by
  rcases hdu : t.due_date with _ | d1 <;>
    rcases hst : t.start_date with _ | d2 <;>
      rcases hrt : t.reminder_time with _ | d3 <;>
        rcases htr : t.recurrence.truthy with _ | _ <;>
          refine ⟨rfl, rfl, rfl, rfl, rfl, rfl, rfl, rfl, rfl, ?_, ?_, ?_, ?_, ?_, ?_,
            ?_, ?_, ?_, ?_⟩ <;>
          simp [serialize_task, Data.get?, hdu, hst, hrt, htr] <;>
          first
            | rfl
            | (intro h
               rw [h] at htr
               simp [Value.truthy] at htr)

/-- Witness for C6 (amended): a set due date is emitted in ISO form, an
unset one is omitted. -/
theorem C6_serializer_key_contract_witness :
    Data.get? (serialize_task taskDue) "due_date" = some (.vStr "2025-07-01T10:00:00") ∧
    Data.get? (serialize_task baseTask) "due_date" = none := by
  constructor
  · have h := (C6_serializer_key_contract taskDue).2.2.2.2.2.2.2.2.2.2.1 dtJan rfl
    rw [h]
    rfl
  · exact (C6_serializer_key_contract baseTask).2.2.2.2.2.2.2.2.2.2.2.1 rfl

/-- C4 counterexample: the claim fails on `priority` — the create
extractor passes `priority="abc"` through unvalidated while the update
pipeline rejects the same value with `Invalid priority value.` — and on
truthy non-string descriptions, which the update path coerces with
`str()` while the create path raises an uncaught `AttributeError`. -/
theorem C4_counterexample_priority :
    (extract_task_fields db0 [("title", .vStr "t"), ("priority", .vStr "abc")] 1 =
      .ok ⟨"t", "", none, none, .vStr "abc", none, none, .vNull⟩) ∧
    ((validate_and_update_task_fields [("priority", .vStr "abc")] 1 ⟨baseTask, db0⟩).1 =
      some "Invalid priority value.") ∧
    (extract_task_fields db0 [("title", .vStr "t"), ("description", .vInt 5)] 1 =
      .error .typeError) ∧
    ((validate_and_update_task_fields [("description", .vInt 5)] 1 ⟨baseTask, db0⟩).1 =
      none) :=
  ⟨rfl, rfl, rfl, rfl⟩

/-- C4 as amended: for title, project_id, due_date, start_date the
update pipeline accepts a present value exactly when the create path's
validator for that field accepts it; completed and recurrence are
accepted unconditionally on both paths; a null or string description is
accepted on both paths; absent keys leave the task untouched.  The
exceptions forced by the counterexample: `priority` (update requires
`int(...)` coercibility, create passes anything through) and truthy
non-string descriptions (update coerces, create raises). -/
theorem C4_update_matches_create_rules (db : DB) (user : Int) (t : Task) (data : Data) :
    (∀ v, data.get? "title" = some v →
      ((update_task_title data t).1 = none ↔ ∃ s, validate_title data = .ok s)) ∧
    (∀ v, data.get? "project_id" = some v →
      ((update_task_project db data user t).1 = none ↔
        ∃ r, validate_project_id db data (some user) = .ok r)) ∧
    (∀ v, data.get? "due_date" = some v →
      ((update_task_due_date data t).1 = none ↔
        ∃ r, parse_date (data.getN "due_date") "due_date" = .ok r)) ∧
    (∀ v, data.get? "start_date" = some v →
      ((update_task_start_date data t).1 = none ↔
        ∃ r, parse_date (data.getN "start_date") "start_date" = .ok r)) ∧
    ((update_task_completed data t).1 = none) ∧
    ((update_task_recurrence data t).1 = none) ∧
    (∀ v, data.get? "description" = some v → (v = .vNull ∨ ∃ s, v = .vStr s) →
      (update_task_description data t).1 = none ∧ (stripDesc v).isSome = true) ∧
    (∀ v, data.get? "priority" = some v →
      ((update_task_priority data t).1 = none ↔ (pyToInt v).isSome = true)) ∧
    (data.get? "title" = none → update_task_title data t = (none, t)) ∧
    (data.get? "description" = none → update_task_description data t = (none, t)) ∧
    (data.get? "completed" = none → update_task_completed data t = (none, t)) ∧
    (data.get? "priority" = none → update_task_priority data t = (none, t)) ∧
    (data.get? "project_id" = none → update_task_project db data user t = (none, t)) ∧
    (data.get? "due_date" = none → update_task_due_date data t = (none, t)) ∧
    (data.get? "start_date" = none → update_task_start_date data t = (none, t)) ∧
    (data.get? "recurrence" = none → update_task_recurrence data t = (none, t)) := by
  refine ⟨?_, ?_, ?_, ?_, ?_, ?_, ?_, ?_, ?_, ?_, ?_, ?_, ?_, ?_, ?_, ?_⟩
  · intro v hv
    cases v <;>
      simp [update_task_title, validate_title, Data.get, hv] <;>
      split_ifs <;> simp_all
  · intro v hv
    rcases v with _ | b | n | s | xs | xs <;>
      simp only [update_task_project, validate_project_id, hv] <;>
      try simp
    all_goals
      (rcases hi : pyToInt _ with _ | n2 <;> simp [hi] <;>
        rcases hf : (findProjectBy db n2 user).isSome <;> simp [hf])
  · intro v hv
    have hgn : data.getN "due_date" = v := by simp [Data.getN, hv]
    rw [hgn]
    by_cases htr : v.truthy = true
    · rcases v with _ | b | n | s | xs | xs <;> simp [Value.truthy] at htr <;>
        simp [update_task_due_date, parse_date, hv, htr, Value.truthy]
      · rcases hp : fromisoformat s with _ | dt <;> simp [hp]
    · rcases v with _ | b | n | s | xs | xs <;>
        simp [update_task_due_date, parse_date, hv, Value.truthy] at htr ⊢ <;>
        simp_all [Value.truthy]
  · intro v hv
    have hgn : data.getN "start_date" = v := by simp [Data.getN, hv]
    rw [hgn]
    by_cases htr : v.truthy = true
    · rcases v with _ | b | n | s | xs | xs <;> simp [Value.truthy] at htr <;>
        simp [update_task_start_date, parse_date, hv, htr, Value.truthy]
      · rcases hp : fromisoformat s with _ | dt <;> simp [hp]
    · rcases v with _ | b | n | s | xs | xs <;>
        simp [update_task_start_date, parse_date, hv, Value.truthy] at htr ⊢ <;>
        simp_all [Value.truthy]
  · cases hv : data.get? "completed" <;> simp [update_task_completed, hv]
  · cases hv : data.get? "recurrence" <;> simp [update_task_recurrence, hv]
  · intro v hv hok
    rcases hok with rfl | ⟨s, rfl⟩ <;>
      simp [update_task_description, stripDesc, hv, Value.truthy] <;>
      split_ifs <;> simp
  · intro v hv
    rcases hi : pyToInt v with _ | n <;> simp [update_task_priority, hv, hi]
  · intro h
    simp [update_task_title, h]
  · intro h
    simp [update_task_description, h]
  · intro h
    simp [update_task_completed, h]
  · intro h
    simp [update_task_priority, h]
  · intro h
    simp [update_task_project, h]
  · intro h
    simp [update_task_due_date, h]
  · intro h
    simp [update_task_start_date, h]
  · intro h
    simp [update_task_recurrence, h]

/-- Witness for C4 (amended): a concrete title value is accepted by both
paths under the same rule, and an absent key is a no-op. -/
theorem C4_update_matches_create_rules_witness :
    ((update_task_title [("title", .vStr " a ")] baseTask).1 = none ↔
      ∃ s, validate_title [("title", .vStr " a ")] = .ok s) ∧
    update_task_title [] baseTask = (none, baseTask) :=
  ⟨(C4_update_matches_create_rules db0 1 baseTask [("title", .vStr " a ")]).1
      (.vStr " a ") rfl,
   (C4_update_matches_create_rules db0 1 baseTask []).2.2.2.2.2.2.2.2.1 rfl⟩

theorem collectDeps_cons_notInt (db : DB) (user selfId : Int) (inv nf : String)
    (v : Value) (rest : List Value) (hp : pyIsInt v = false) :
    collectDeps db user selfId inv nf (v :: rest) = .error (inv ++ pyStr v) := by
  simp [collectDeps, hp]

theorem collectDeps_cons_notFound (db : DB) (user selfId : Int) (inv nf : String)
    (v : Value) (rest : List Value) (hp : pyIsInt v = true)
    (hf : findTaskBy db (pyIntVal v) user = none) :
    collectDeps db user selfId inv nf (v :: rest) = .error (nf ++ pyStr v) := by
  simp [collectDeps, hp, hf]

theorem collectDeps_cons_self (db : DB) (user selfId : Int) (inv nf : String)
    (v : Value) (rest : List Value) (u : Task) (hp : pyIsInt v = true)
    (hf : findTaskBy db (pyIntVal v) user = some u) (hs : u.id = selfId) :
    collectDeps db user selfId inv nf (v :: rest) = .error "Task cannot block itself" := by
  simp [collectDeps, hp, hf, hs]

theorem collectDeps_cons_good (db : DB) (user selfId : Int) (inv nf : String)
    (v : Value) (rest : List Value) (u : Task) (hp : pyIsInt v = true)
    (hf : findTaskBy db (pyIntVal v) user = some u) (hs : u.id ≠ selfId) :
    collectDeps db user selfId inv nf (v :: rest) =
      Except.map (fun ids => u.id :: ids) (collectDeps db user selfId inv nf rest) := by
  simp [collectDeps, hp, hf, hs]

theorem collectDeps_ok_iff (db : DB) (user selfId : Int) (inv nf : String)
    (xs : List Value) :
    (∃ ids, collectDeps db user selfId inv nf xs = .ok ids) ↔
      ∀ v ∈ xs, GoodDep db user selfId v := by
  induction xs with
  | nil => simp [collectDeps]
  | cons v rest ih =>
    simp only [List.mem_cons]
    by_cases hp : pyIsInt v = true
    · rcases hf : findTaskBy db (pyIntVal v) user with _ | u
      · rw [collectDeps_cons_notFound db user selfId inv nf v rest hp hf]
        constructor
        · intro ⟨ids, hids⟩
          exact Except.noConfusion hids
        · intro h
          exact absurd (h v (Or.inl rfl)).2.1 (by simp [hf])
      · have hu := findTaskBy_eq_some hf
        by_cases hs : u.id = selfId
        · rw [collectDeps_cons_self db user selfId inv nf v rest u hp hf hs]
          constructor
          · intro ⟨ids, hids⟩
            exact Except.noConfusion hids
          · intro h
            exact absurd (h v (Or.inl rfl)).2.2 (by rw [← hu.1, hs]; simp)
        · rw [collectDeps_cons_good db user selfId inv nf v rest u hp hf hs]
          rcases hr : collectDeps db user selfId inv nf rest with e | ids
          · simp only [Except.map]
            constructor
            · intro ⟨ids, hids⟩
              exact Except.noConfusion hids
            · intro h
              have hex : ∃ ids, collectDeps db user selfId inv nf rest = .ok ids :=
                ih.mpr (fun w hw => h w (Or.inr hw))
              rcases hex with ⟨ids, hids⟩
              rw [hr] at hids
              exact Except.noConfusion hids
          · simp only [Except.map]
            constructor
            · intro _ w hw
              rcases hw with rfl | hw
              · exact ⟨hp, by simp [hf], by rw [← hu.1]; exact hs⟩
              · exact (ih.mp ⟨ids, hr⟩) w hw
            · intro _
              exact ⟨u.id :: ids, rfl⟩
    · rw [collectDeps_cons_notInt db user selfId inv nf v rest (by simpa using hp)]
      constructor
      · intro ⟨ids, hids⟩
        exact Except.noConfusion hids
      · intro h
        exact absurd (h v (Or.inl rfl)).1 hp

theorem collectDeps_ok_ids (db : DB) (user selfId : Int) (inv nf : String) :
    ∀ xs ids, collectDeps db user selfId inv nf xs = .ok ids → ids = xs.map pyIntVal := by
  intro xs
  induction xs with
  | nil =>
    intro ids h
    simp only [collectDeps] at h
    cases h
    rfl
  | cons v rest ih =>
    intro ids h
    by_cases hp : pyIsInt v = true
    · rcases hf : findTaskBy db (pyIntVal v) user with _ | u
      · rw [collectDeps_cons_notFound db user selfId inv nf v rest hp hf] at h
        exact Except.noConfusion h
      · by_cases hs : u.id = selfId
        · rw [collectDeps_cons_self db user selfId inv nf v rest u hp hf hs] at h
          exact Except.noConfusion h
        · rw [collectDeps_cons_good db user selfId inv nf v rest u hp hf hs] at h
          rcases hr : collectDeps db user selfId inv nf rest with e | ids' <;>
            rw [hr] at h <;> simp only [Except.map] at h
          · exact Except.noConfusion h
          · cases h
            have hid := (findTaskBy_eq_some hf).1
            simp [ih ids' hr, hid]
    · rw [collectDeps_cons_notInt db user selfId inv nf v rest (by simpa using hp)] at h
      exact Except.noConfusion h

theorem collectDeps_err_notFound (db : DB) (user selfId : Int) (inv nf : String)
    (pre : List Value) (v : Value) (rest : List Value)
    (hpre : ∀ w ∈ pre, GoodDep db user selfId w)
    (hv : pyIsInt v = true) (hnf : findTaskBy db (pyIntVal v) user = none) :
    collectDeps db user selfId inv nf (pre ++ v :: rest) = .error (nf ++ pyStr v) := by
  induction pre with
  | nil =>
    rw [List.nil_append, collectDeps_cons_notFound db user selfId inv nf v rest hv hnf]
  | cons w pre' ih =>
    obtain ⟨hw1, hw2, hw3⟩ := hpre w (by simp)
    rcases hfw : findTaskBy db (pyIntVal w) user with _ | u
    · rw [hfw] at hw2
      simp at hw2
    · have hu := findTaskBy_eq_some hfw
      have hne : u.id ≠ selfId := by rw [hu.1]; exact hw3
      rw [List.cons_append,
        collectDeps_cons_good db user selfId inv nf w (pre' ++ v :: rest) u hw1 hfw hne,
        ih (fun w' hw' => hpre w' (by simp [hw']))]
      rfl

theorem collectDeps_err_self (db : DB) (user selfId : Int) (inv nf : String)
    (pre : List Value) (v : Value) (rest : List Value)
    (hpre : ∀ w ∈ pre, GoodDep db user selfId w)
    (hv : pyIsInt v = true) (hres : (findTaskBy db (pyIntVal v) user).isSome = true)
    (hself : pyIntVal v = selfId) :
    collectDeps db user selfId inv nf (pre ++ v :: rest) =
      .error "Task cannot block itself" := by
  induction pre with
  | nil =>
    rcases hf : findTaskBy db (pyIntVal v) user with _ | u
    · rw [hf] at hres
      exact Bool.noConfusion hres
    · have hu := findTaskBy_eq_some hf
      rw [List.nil_append,
        collectDeps_cons_self db user selfId inv nf v rest u hv hf (hu.1.trans hself)]
  | cons w pre' ih =>
    obtain ⟨hw1, hw2, hw3⟩ := hpre w (by simp)
    rcases hfw : findTaskBy db (pyIntVal w) user with _ | u
    · rw [hfw] at hw2
      simp at hw2
    · have hu := findTaskBy_eq_some hfw
      have hne : u.id ≠ selfId := by rw [hu.1]; exact hw3
      rw [List.cons_append,
        collectDeps_cons_good db user selfId inv nf w (pre' ++ v :: rest) u hw1 hfw hne,
        ih (fun w' hw' => hpre w' (by simp [hw']))]
      rfl

/-- C3: for each dependency direction, a null input clears the edge set,
a non-list input fails with the must-be-a-list message, and a list input
succeeds exactly when every element is a (Python) integer resolving to a
task of the same owner and different from the task's own id — the first
unresolvable id fails with the not-found message naming the id, an own
id fails with `Task cannot block itself` — and on success the stored
edge list is exactly the submitted ids (full replace), so neither
updater can ever record a task as blocking itself. -/
theorem C3_dependency_replacement (db : DB) (owner : Int) (t : Task) (data : Data) :
    (data.get? "blocked_by" = some .vNull →
      update_task_blocked_by db data owner t = (none, { t with blocked_by := [] })) ∧
    (data.get? "blocking" = some .vNull →
      update_task_blocking db data owner t = (none, { t with blocking := [] })) ∧
    (∀ v, data.get? "blocked_by" = some v →
      (match v with | .vNull => False | .vList _ => False | _ => True) →
      update_task_blocked_by db data owner t =
        (some "blocked_by must be a list of task IDs", t)) ∧
    (∀ v, data.get? "blocking" = some v →
      (match v with | .vNull => False | .vList _ => False | _ => True) →
      update_task_blocking db data owner t =
        (some "blocking must be a list of task IDs", t)) ∧
    (∀ xs, data.get? "blocked_by" = some (.vList xs) →
      ((update_task_blocked_by db data owner t).1 = none ↔
        ∀ v ∈ xs, GoodDep db owner t.id v)) ∧
    (∀ xs, data.get? "blocking" = some (.vList xs) →
      ((update_task_blocking db data owner t).1 = none ↔
        ∀ v ∈ xs, GoodDep db owner t.id v)) ∧
    (∀ xs t', data.get? "blocked_by" = some (.vList xs) →
      update_task_blocked_by db data owner t = (none, t') →
      t' = { t with blocked_by := xs.map pyIntVal }) ∧
    (∀ xs t', data.get? "blocking" = some (.vList xs) →
      update_task_blocking db data owner t = (none, t') →
      t' = { t with blocking := xs.map pyIntVal }) ∧
    (∀ pre v rest, data.get? "blocked_by" = some (.vList (pre ++ v :: rest)) →
      (∀ w ∈ pre, GoodDep db owner t.id w) → pyIsInt v = true →
      (findTaskBy db (pyIntVal v) owner = none →
        update_task_blocked_by db data owner t =
          (some ("Blocking task not found: " ++ pyStr v), t)) ∧
      ((findTaskBy db (pyIntVal v) owner).isSome = true → pyIntVal v = t.id →
        update_task_blocked_by db data owner t = (some "Task cannot block itself", t))) ∧
    (∀ pre v rest, data.get? "blocking" = some (.vList (pre ++ v :: rest)) →
      (∀ w ∈ pre, GoodDep db owner t.id w) → pyIsInt v = true →
      (findTaskBy db (pyIntVal v) owner = none →
        update_task_blocking db data owner t =
          (some ("Blocked task not found: " ++ pyStr v), t)) ∧
      ((findTaskBy db (pyIntVal v) owner).isSome = true → pyIntVal v = t.id →
        update_task_blocking db data owner t = (some "Task cannot block itself", t))) ∧
    (∀ xs t', data.get? "blocked_by" = some (.vList xs) →
      update_task_blocked_by db data owner t = (none, t') → t'.id ∉ t'.blocked_by) ∧
    (∀ xs t', data.get? "blocking" = some (.vList xs) →
      update_task_blocking db data owner t = (none, t') → t'.id ∉ t'.blocking) := by
  have hok_bb : ∀ xs t', data.get? "blocked_by" = some (.vList xs) →
      update_task_blocked_by db data owner t = (none, t') →
      (∃ ids, collectDeps db owner t.id "Invalid blocking task ID: "
        "Blocking task not found: " xs = .ok ids ∧ t' = { t with blocked_by := ids }) := by
    intro xs t' hv h
    simp only [update_task_blocked_by, hv] at h
    rcases hc : collectDeps db owner t.id "Invalid blocking task ID: "
        "Blocking task not found: " xs with e | ids <;> rw [hc] at h
    · simp at h
    · exact ⟨ids, rfl, ((Prod.mk.injEq _ _ _ _).mp h).2.symm⟩
  have hok_bl : ∀ xs t', data.get? "blocking" = some (.vList xs) →
      update_task_blocking db data owner t = (none, t') →
      (∃ ids, collectDeps db owner t.id "Invalid blocked task ID: "
        "Blocked task not found: " xs = .ok ids ∧ t' = { t with blocking := ids }) := by
    intro xs t' hv h
    simp only [update_task_blocking, hv] at h
    rcases hc : collectDeps db owner t.id "Invalid blocked task ID: "
        "Blocked task not found: " xs with e | ids <;> rw [hc] at h
    · simp at h
    · exact ⟨ids, rfl, ((Prod.mk.injEq _ _ _ _).mp h).2.symm⟩
  refine ⟨?_, ?_, ?_, ?_, ?_, ?_, ?_, ?_, ?_, ?_, ?_, ?_⟩
  · intro hv
    simp [update_task_blocked_by, hv]
  · intro hv
    simp [update_task_blocking, hv]
  · intro v hv hshape
    rcases v with _ | b | n | s | xs | xs <;> simp_all [update_task_blocked_by]
  · intro v hv hshape
    rcases v with _ | b | n | s | xs | xs <;> simp_all [update_task_blocking]
  · intro xs hv
    simp only [update_task_blocked_by, hv]
    rcases hc : collectDeps db owner t.id "Invalid blocking task ID: "
        "Blocking task not found: " xs with e | ids
    · simp only [hc]
      constructor
      · intro h
        exact absurd h (by simp)
      · intro h
        rcases (collectDeps_ok_iff db owner t.id "Invalid blocking task ID: "
            "Blocking task not found: " xs).mpr h with ⟨ids, hids⟩
        rw [hc] at hids
        exact Except.noConfusion hids
    · simp only [hc]
      constructor
      · intro _
        exact (collectDeps_ok_iff db owner t.id _ _ xs).mp ⟨ids, hc⟩
      · intro _
        trivial
  · intro xs hv
    simp only [update_task_blocking, hv]
    rcases hc : collectDeps db owner t.id "Invalid blocked task ID: "
        "Blocked task not found: " xs with e | ids
    · simp only [hc]
      constructor
      · intro h
        exact absurd h (by simp)
      · intro h
        rcases (collectDeps_ok_iff db owner t.id "Invalid blocked task ID: "
            "Blocked task not found: " xs).mpr h with ⟨ids, hids⟩
        rw [hc] at hids
        exact Except.noConfusion hids
    · simp only [hc]
      constructor
      · intro _
        exact (collectDeps_ok_iff db owner t.id _ _ xs).mp ⟨ids, hc⟩
      · intro _
        trivial
  · intro xs t' hv h
    rcases hok_bb xs t' hv h with ⟨ids, hc, rfl⟩
    rw [collectDeps_ok_ids db owner t.id _ _ xs ids hc]
  · intro xs t' hv h
    rcases hok_bl xs t' hv h with ⟨ids, hc, rfl⟩
    rw [collectDeps_ok_ids db owner t.id _ _ xs ids hc]
  · intro pre v rest hv hpre hint
    constructor
    · intro hnf
      simp only [update_task_blocked_by, hv,
        collectDeps_err_notFound db owner t.id _ _ pre v rest hpre hint hnf]
    · intro hres hself
      simp only [update_task_blocked_by, hv,
        collectDeps_err_self db owner t.id _ _ pre v rest hpre hint hres hself]
  · intro pre v rest hv hpre hint
    constructor
    · intro hnf
      simp only [update_task_blocking, hv,
        collectDeps_err_notFound db owner t.id _ _ pre v rest hpre hint hnf]
    · intro hres hself
      simp only [update_task_blocking, hv,
        collectDeps_err_self db owner t.id _ _ pre v rest hpre hint hres hself]
  · intro xs t' hv h
    rcases hok_bb xs t' hv h with ⟨ids, hc, rfl⟩
    have hgood := (collectDeps_ok_iff db owner t.id _ _ xs).mp ⟨ids, hc⟩
    have hids := collectDeps_ok_ids db owner t.id _ _ xs ids hc
    subst hids
    intro hmem
    simp only [List.mem_map] at hmem
    rcases hmem with ⟨w, hw, hwid⟩
    exact (hgood w hw).2.2 hwid
  · intro xs t' hv h
    rcases hok_bl xs t' hv h with ⟨ids, hc, rfl⟩
    have hgood := (collectDeps_ok_iff db owner t.id _ _ xs).mp ⟨ids, hc⟩
    have hids := collectDeps_ok_ids db owner t.id _ _ xs ids hc
    subst hids
    intro hmem
    simp only [List.mem_map] at hmem
    rcases hmem with ⟨w, hw, hwid⟩
    exact (hgood w hw).2.2 hwid

/-- Scenario-C witness for C3: blocking task 1 is stored for task 2 on
success; task 2 blocking itself is rejected; an unknown id 9 is rejected
naming the id; null clears; a non-list fails. -/
theorem C3_dependency_replacement_witness :
    ({ taskB with blocked_by := [(1 : Int)] } =
      { taskB with blocked_by := [.vInt 1].map pyIntVal }) ∧
    (update_task_blocked_by db3 [("blocked_by", .vList [.vInt 2])] 1 taskB =
      (some "Task cannot block itself", taskB)) ∧
    (update_task_blocked_by db3 [("blocked_by", .vList [.vInt 9])] 1 taskB =
      (some "Blocking task not found: 9", taskB)) ∧
    (update_task_blocked_by db3 [("blocked_by", .vNull)] 1 taskB =
      (none, { taskB with blocked_by := [] })) ∧
    (update_task_blocking db3 [("blocking", .vInt 3)] 1 taskB =
      (some "blocking must be a list of task IDs", taskB)) :=
  ⟨(C3_dependency_replacement db3 1 taskB [("blocked_by", .vList [.vInt 1])]).2.2.2.2.2.2.1
      [.vInt 1] { taskB with blocked_by := [(1 : Int)] } rfl rfl,
   ((C3_dependency_replacement db3 1 taskB
      [("blocked_by", .vList [.vInt 2])]).2.2.2.2.2.2.2.2.1
      [] (.vInt 2) [] rfl (by simp) rfl).2 rfl rfl,
   ((C3_dependency_replacement db3 1 taskB
      [("blocked_by", .vList [.vInt 9])]).2.2.2.2.2.2.2.2.1
      [] (.vInt 9) [] rfl (by simp) rfl).1 rfl,
   (C3_dependency_replacement db3 1 taskB [("blocked_by", .vNull)]).1 rfl,
   (C3_dependency_replacement db3 1 taskB [("blocking", .vInt 3)]).2.2.2.1
      (.vInt 3) rfl trivial⟩

theorem subtaskClosure_extends (tasks : List Task) :
    ∀ (n : Nat) (acc : List Int) (x : Int), x ∈ acc → x ∈ subtaskClosure tasks acc n := by
  intro n
  induction n with
  | zero =>
    intro acc x hx
    simpa [subtaskClosure] using hx
  | succ n ih =>
    intro acc x hx
    simp only [subtaskClosure]
    split
    · exact hx
    · exact ih _ x (List.mem_append_left _ hx)

/-- Any task whose id is in the doomed set is gone from the store the
project delete leaves behind. -/
theorem findTaskBy_deleted (db : DB) (pid owner tid : Int) (doomed : List Int)
    (hd : doomed.contains tid = true) :
    findTaskBy
      ⟨(db.tasks.filter (fun t => !doomed.contains t.id)).map
        (fun t => { t with
          blocked_by := t.blocked_by.filter (fun i => !doomed.contains i),
          blocking := t.blocking.filter (fun i => !doomed.contains i) }),
        db.projects.filter (fun q => q.id != pid)⟩ tid owner = none := by
  unfold findTaskBy
  rw [List.find?_eq_none]
  intro u hu
  simp only [List.mem_map] at hu
  rcases hu with ⟨w, hw, rfl⟩
  rw [List.mem_filter] at hw
  simp only [Bool.and_eq_true, beq_iff_eq]
  rintro ⟨hid, -⟩
  have hwid : w.id = tid := hid
  have h2 := hw.2
  rw [hwid] at h2
  simp only [Bool.not_eq_true'] at h2
  rw [h2] at hd
  exact Bool.noConfusion hd

/-- C1: deleting a project through the route removes the task rows filed
under it (ORM cascade, not a detach), so fetching such a task by id for
the same owner afterwards reports `Task not found`. -/
theorem C1_project_delete_cascades (db db' : DB) (pid owner : Int) (t : Task)
    (ht : t ∈ db.tasks) (hp : t.project_id = some pid)
    (hdel : delete_project db pid owner = .ok db') :
    get_task db' t.id owner = .error "Task not found" := by
  rcases hfp : db.projects.find? (fun p => p.id == pid) with _ | p <;>
    simp only [delete_project, hfp] at hdel
  · exact Except.noConfusion hdel
  · split at hdel
    · exact Except.noConfusion hdel
    · simp only [Except.ok.injEq] at hdel
      subst hdel
      have hroot : t.id ∈ projectTaskIds db.tasks pid := by
        simp only [projectTaskIds, List.mem_map]
        exact ⟨t, by simp [List.mem_filter, ht, hp], rfl⟩
      have hdoomed : (subtaskClosure db.tasks (projectTaskIds db.tasks pid)
          db.tasks.length).contains t.id = true := by
        simpa using subtaskClosure_extends db.tasks db.tasks.length _ t.id hroot
      unfold get_task
      rw [findTaskBy_deleted db pid owner t.id _ hdoomed]

/-- Scenario-D witness for C1: delete project 1 of owner 1, then fetch
its task (id 2) — the row is gone, not detached. -/
theorem C1_project_delete_cascades_witness :
    get_task ⟨[], []⟩ 2 1 = .error "Task not found" :=
  C1_project_delete_cascades dbC1 ⟨[], []⟩ 1 1 taskInP (by simp [dbC1])
    rfl rfl

theorem wOf_idem {α : Type} (p : Plan α) (x : α) : wOf p (wOf p x) = wOf p x := by
  cases p <;> rfl

theorem update_task_title_char (data : Data) (t : Task) :
    update_task_title data t =
      (match planTitle data with
        | .skip => (none, t)
        | .fail e => (some e, t)
        | .write w => (none, { t with title := w })) := by
  simp only [update_task_title, planTitle]
  rcases data.get? "title" with _ | v
  · rfl
  · try simp only []
    rcases v with _ | b | n | s | xs | xs <;> try rfl
    try simp only []
    split_ifs <;> rfl

theorem update_task_description_char (data : Data) (t : Task) :
    update_task_description data t =
      (match planDesc data with
        | .skip => (none, t)
        | .fail e => (some e, t)
        | .write w => (none, { t with description := w })) := by
  simp only [update_task_description, planDesc]
  rcases data.get? "description" with _ | v
  · rfl
  · rcases v with _ | b | n | s | xs | xs <;> rfl

theorem update_task_completed_char (data : Data) (t : Task) :
    update_task_completed data t =
      (match planCompleted data with
        | .skip => (none, t)
        | .fail e => (some e, t)
        | .write w => (none, { t with completed := w })) := by
  simp only [update_task_completed, planCompleted]
  rcases data.get? "completed" with _ | v <;> rfl

theorem update_task_priority_char (data : Data) (t : Task) :
    update_task_priority data t =
      (match planPriority data with
        | .skip => (none, t)
        | .fail e => (some e, t)
        | .write w => (none, { t with priority := w })) := by
  simp only [update_task_priority, planPriority]
  rcases data.get? "priority" with _ | v
  · rfl
  · try simp only []
    rcases pyToInt v with _ | n <;> rfl

theorem update_task_project_char (db : DB) (data : Data) (user : Int) (t : Task) :
    update_task_project db data user t =
      (match planProject db data user with
        | .skip => (none, t)
        | .fail e => (some e, t)
        | .write w => (none, { t with project_id := w })) := by
  simp only [update_task_project, planProject]
  rcases data.get? "project_id" with _ | v
  · rfl
  · try simp only []
    rcases v with _ | b | n | s | xs | xs <;> try rfl
    all_goals
      try simp only []
    all_goals
      rcases pyToInt _ with _ | m
      · rfl
      · try simp only []
        split_ifs <;> rfl

theorem update_task_due_date_char (data : Data) (t : Task) :
    update_task_due_date data t =
      (match planDue data with
        | .skip => (none, t)
        | .fail e => (some e, t)
        | .write w => (none, { t with due_date := w })) := by
  simp only [update_task_due_date, planDue]
  rcases data.get? "due_date" with _ | v
  · rfl
  · try simp only []
    rcases v with _ | b | n | s | xs | xs <;> split_ifs <;> try rfl
    all_goals
      try simp only []
    all_goals
      rcases fromisoformat s with _ | dt <;> rfl

theorem update_task_start_date_char (data : Data) (t : Task) :
    update_task_start_date data t =
      (match planStart data with
        | .skip => (none, t)
        | .fail e => (some e, t)
        | .write w => (none, { t with start_date := w })) := by
  simp only [update_task_start_date, planStart]
  rcases data.get? "start_date" with _ | v
  · rfl
  · try simp only []
    rcases v with _ | b | n | s | xs | xs <;> split_ifs <;> try rfl
    all_goals
      try simp only []
    all_goals
      rcases fromisoformat s with _ | dt <;> rfl

theorem update_task_recurrence_char (data : Data) (t : Task) :
    update_task_recurrence data t =
      (match planRecurrence data with
        | .skip => (none, t)
        | .fail e => (some e, t)
        | .write w => (none, { t with recurrence := w })) := by
  simp only [update_task_recurrence, planRecurrence]
  rcases data.get? "recurrence" with _ | v <;> rfl

theorem update_task_blocked_by_char (db : DB) (data : Data) (user : Int) (t : Task) :
    update_task_blocked_by db data user t =
      (match planBlockedBy db data user t.id with
        | .skip => (none, t)
        | .fail e => (some e, t)
        | .write w => (none, { t with blocked_by := w })) := by
  simp only [update_task_blocked_by, planBlockedBy]
  rcases data.get? "blocked_by" with _ | v
  · rfl
  · try simp only []
    rcases v with _ | b | n | s | xs | xs <;> try rfl
    try simp only []
    rcases collectDeps db user t.id "Invalid blocking task ID: "
      "Blocking task not found: " xs with e | ids <;> rfl

theorem update_task_blocking_char (db : DB) (data : Data) (user : Int) (t : Task) :
    update_task_blocking db data user t =
      (match planBlocking db data user t.id with
        | .skip => (none, t)
        | .fail e => (some e, t)
        | .write w => (none, { t with blocking := w })) := by
  simp only [update_task_blocking, planBlocking]
  rcases data.get? "blocking" with _ | v
  · rfl
  · try simp only []
    rcases v with _ | b | n | s | xs | xs <;> try rfl
    try simp only []
    rcases collectDeps db user t.id "Invalid blocked task ID: "
      "Blocked task not found: " xs with e | ids <;> rfl

theorem update_task_reminder_enabled_char (data : Data) (t : Task) :
    update_task_reminder_enabled data t =
      (match planRemEnabled data with
        | .skip => (none, t)
        | .fail e => (some e, t)
        | .write w => (none, { t with reminder_enabled := w })) := by
  simp only [update_task_reminder_enabled, planRemEnabled]
  rcases data.get? "reminder_enabled" with _ | v
  · rfl
  · rcases v with _ | b | n | s | xs | xs <;> rfl

theorem update_task_reminder_time_char (data : Data) (t : Task) :
    update_task_reminder_time data t =
      (match planRemTime data with
        | .skip => (none, t)
        | .fail e => (some e, t)
        | .write w => (none, { t with reminder_time := w })) := by
  simp only [update_task_reminder_time, planRemTime]
  rcases data.get? "reminder_time" with _ | v
  · rfl
  · try simp only []
    rcases v with _ | b | n | s | xs | xs <;> try rfl
    try simp only []
    rcases fromisoformat s with _ | dt <;> rfl

theorem update_task_subtasks_char (db : DB) (data : Data) (user : Int) (t : Task)
    (h : subtasksShapeOk data = true) :
    update_task_subtasks db data user t = (none, subtasksApply db data user t.id) := by
  revert h
  simp only [update_task_subtasks, subtasksApply, subtasksShapeOk]
  rcases data.get? "subtasks" with _ | v
  · intro _
    rfl
  · rcases v with _ | b | n | s | xs | xs <;> intro h <;>
      first
        | rfl
        | exact Bool.noConfusion h

theorem update_task_subtasks_inv (db : DB) (data : Data) (user : Int) (t : Task)
    (db2 : DB) (h : update_task_subtasks db data user t = (none, db2)) :
    subtasksShapeOk data = true ∧ db2 = subtasksApply db data user t.id := by
  revert h
  simp only [update_task_subtasks, subtasksApply, subtasksShapeOk]
  rcases data.get? "subtasks" with _ | v
  · intro h
    exact ⟨rfl, (congrArg Prod.snd h).symm⟩
  · rcases v with _ | b | n | s | xs | xs <;> intro h <;>
      first
        | exact ⟨rfl, (congrArg Prod.snd h).symm⟩
        | exact Option.noConfusion (congrArg Prod.fst h)

theorem update_task_title_fwd (data : Data) (s : Task)
    (hp : (planTitle data).isFail = false) :
    update_task_title data s = (none, { s with title := wOf (planTitle data) s.title }) := by
  rw [update_task_title_char data s]
  rcases hp2 : planTitle data with _ | e | w
  · rfl
  · rw [hp2] at hp
    simp [Plan.isFail] at hp
  · rfl

theorem update_task_title_inv (data : Data) (s s' : Task)
    (h : update_task_title data s = (none, s')) :
    (planTitle data).isFail = false ∧ s' = { s with title := wOf (planTitle data) s.title } := by
  rw [update_task_title_char data s] at h
  rcases hp2 : planTitle data with _ | e | w
  · rw [hp2] at h
    exact ⟨rfl, ((congrArg Prod.snd h).symm : s' = s)⟩
  · rw [hp2] at h
    exact absurd (congrArg Prod.fst h) (by simp)
  · rw [hp2] at h
    exact ⟨rfl, ((congrArg Prod.snd h).symm : s' = { s with title := w })⟩

theorem update_task_description_fwd (data : Data) (s : Task)
    (hp : (planDesc data).isFail = false) :
    update_task_description data s = (none, { s with description := wOf (planDesc data) s.description }) := by
  rw [update_task_description_char data s]
  rcases hp2 : planDesc data with _ | e | w
  · rfl
  · rw [hp2] at hp
    simp [Plan.isFail] at hp
  · rfl

theorem update_task_description_inv (data : Data) (s s' : Task)
    (h : update_task_description data s = (none, s')) :
    (planDesc data).isFail = false ∧ s' = { s with description := wOf (planDesc data) s.description } := by
  rw [update_task_description_char data s] at h
  rcases hp2 : planDesc data with _ | e | w
  · rw [hp2] at h
    exact ⟨rfl, ((congrArg Prod.snd h).symm : s' = s)⟩
  · rw [hp2] at h
    exact absurd (congrArg Prod.fst h) (by simp)
  · rw [hp2] at h
    exact ⟨rfl, ((congrArg Prod.snd h).symm : s' = { s with description := w })⟩

theorem update_task_completed_fwd (data : Data) (s : Task)
    (hp : (planCompleted data).isFail = false) :
    update_task_completed data s = (none, { s with completed := wOf (planCompleted data) s.completed }) := by
  rw [update_task_completed_char data s]
  rcases hp2 : planCompleted data with _ | e | w
  · rfl
  · rw [hp2] at hp
    simp [Plan.isFail] at hp
  · rfl

theorem update_task_completed_inv (data : Data) (s s' : Task)
    (h : update_task_completed data s = (none, s')) :
    (planCompleted data).isFail = false ∧ s' = { s with completed := wOf (planCompleted data) s.completed } := by
  rw [update_task_completed_char data s] at h
  rcases hp2 : planCompleted data with _ | e | w
  · rw [hp2] at h
    exact ⟨rfl, ((congrArg Prod.snd h).symm : s' = s)⟩
  · rw [hp2] at h
    exact absurd (congrArg Prod.fst h) (by simp)
  · rw [hp2] at h
    exact ⟨rfl, ((congrArg Prod.snd h).symm : s' = { s with completed := w })⟩

theorem update_task_priority_fwd (data : Data) (s : Task)
    (hp : (planPriority data).isFail = false) :
    update_task_priority data s = (none, { s with priority := wOf (planPriority data) s.priority }) := by
  rw [update_task_priority_char data s]
  rcases hp2 : planPriority data with _ | e | w
  · rfl
  · rw [hp2] at hp
    simp [Plan.isFail] at hp
  · rfl

theorem update_task_priority_inv (data : Data) (s s' : Task)
    (h : update_task_priority data s = (none, s')) :
    (planPriority data).isFail = false ∧ s' = { s with priority := wOf (planPriority data) s.priority } := by
  rw [update_task_priority_char data s] at h
  rcases hp2 : planPriority data with _ | e | w
  · rw [hp2] at h
    exact ⟨rfl, ((congrArg Prod.snd h).symm : s' = s)⟩
  · rw [hp2] at h
    exact absurd (congrArg Prod.fst h) (by simp)
  · rw [hp2] at h
    exact ⟨rfl, ((congrArg Prod.snd h).symm : s' = { s with priority := w })⟩

theorem update_task_project_fwd (db : DB) (data : Data) (user : Int) (s : Task)
    (hp : (planProject db data user).isFail = false) :
    update_task_project db data user s = (none, { s with project_id := wOf (planProject db data user) s.project_id }) := by
  rw [update_task_project_char db data user s]
  rcases hp2 : planProject db data user with _ | e | w
  · rfl
  · rw [hp2] at hp
    simp [Plan.isFail] at hp
  · rfl

theorem update_task_project_inv (db : DB) (data : Data) (user : Int) (s s' : Task)
    (h : update_task_project db data user s = (none, s')) :
    (planProject db data user).isFail = false ∧ s' = { s with project_id := wOf (planProject db data user) s.project_id } := by
  rw [update_task_project_char db data user s] at h
  rcases hp2 : planProject db data user with _ | e | w
  · rw [hp2] at h
    exact ⟨rfl, ((congrArg Prod.snd h).symm : s' = s)⟩
  · rw [hp2] at h
    exact absurd (congrArg Prod.fst h) (by simp)
  · rw [hp2] at h
    exact ⟨rfl, ((congrArg Prod.snd h).symm : s' = { s with project_id := w })⟩

theorem update_task_due_date_fwd (data : Data) (s : Task)
    (hp : (planDue data).isFail = false) :
    update_task_due_date data s = (none, { s with due_date := wOf (planDue data) s.due_date }) := by
  rw [update_task_due_date_char data s]
  rcases hp2 : planDue data with _ | e | w
  · rfl
  · rw [hp2] at hp
    simp [Plan.isFail] at hp
  · rfl

theorem update_task_due_date_inv (data : Data) (s s' : Task)
    (h : update_task_due_date data s = (none, s')) :
    (planDue data).isFail = false ∧ s' = { s with due_date := wOf (planDue data) s.due_date } := by
  rw [update_task_due_date_char data s] at h
  rcases hp2 : planDue data with _ | e | w
  · rw [hp2] at h
    exact ⟨rfl, ((congrArg Prod.snd h).symm : s' = s)⟩
  · rw [hp2] at h
    exact absurd (congrArg Prod.fst h) (by simp)
  · rw [hp2] at h
    exact ⟨rfl, ((congrArg Prod.snd h).symm : s' = { s with due_date := w })⟩

theorem update_task_start_date_fwd (data : Data) (s : Task)
    (hp : (planStart data).isFail = false) :
    update_task_start_date data s = (none, { s with start_date := wOf (planStart data) s.start_date }) := by
  rw [update_task_start_date_char data s]
  rcases hp2 : planStart data with _ | e | w
  · rfl
  · rw [hp2] at hp
    simp [Plan.isFail] at hp
  · rfl

theorem update_task_start_date_inv (data : Data) (s s' : Task)
    (h : update_task_start_date data s = (none, s')) :
    (planStart data).isFail = false ∧ s' = { s with start_date := wOf (planStart data) s.start_date } := by
  rw [update_task_start_date_char data s] at h
  rcases hp2 : planStart data with _ | e | w
  · rw [hp2] at h
    exact ⟨rfl, ((congrArg Prod.snd h).symm : s' = s)⟩
  · rw [hp2] at h
    exact absurd (congrArg Prod.fst h) (by simp)
  · rw [hp2] at h
    exact ⟨rfl, ((congrArg Prod.snd h).symm : s' = { s with start_date := w })⟩

theorem update_task_recurrence_fwd (data : Data) (s : Task)
    (hp : (planRecurrence data).isFail = false) :
    update_task_recurrence data s = (none, { s with recurrence := wOf (planRecurrence data) s.recurrence }) := by
  rw [update_task_recurrence_char data s]
  rcases hp2 : planRecurrence data with _ | e | w
  · rfl
  · rw [hp2] at hp
    simp [Plan.isFail] at hp
  · rfl

theorem update_task_recurrence_inv (data : Data) (s s' : Task)
    (h : update_task_recurrence data s = (none, s')) :
    (planRecurrence data).isFail = false ∧ s' = { s with recurrence := wOf (planRecurrence data) s.recurrence } := by
  rw [update_task_recurrence_char data s] at h
  rcases hp2 : planRecurrence data with _ | e | w
  · rw [hp2] at h
    exact ⟨rfl, ((congrArg Prod.snd h).symm : s' = s)⟩
  · rw [hp2] at h
    exact absurd (congrArg Prod.fst h) (by simp)
  · rw [hp2] at h
    exact ⟨rfl, ((congrArg Prod.snd h).symm : s' = { s with recurrence := w })⟩

theorem update_task_blocked_by_fwd (db : DB) (data : Data) (user : Int) (s : Task)
    (hp : (planBlockedBy db data user s.id).isFail = false) :
    update_task_blocked_by db data user s = (none, { s with blocked_by := wOf (planBlockedBy db data user s.id) s.blocked_by }) := by
  rw [update_task_blocked_by_char db data user s]
  rcases hp2 : planBlockedBy db data user s.id with _ | e | w
  · rfl
  · rw [hp2] at hp
    simp [Plan.isFail] at hp
  · rfl

theorem update_task_blocked_by_inv (db : DB) (data : Data) (user : Int) (s s' : Task)
    (h : update_task_blocked_by db data user s = (none, s')) :
    (planBlockedBy db data user s.id).isFail = false ∧ s' = { s with blocked_by := wOf (planBlockedBy db data user s.id) s.blocked_by } := by
  rw [update_task_blocked_by_char db data user s] at h
  rcases hp2 : planBlockedBy db data user s.id with _ | e | w
  · rw [hp2] at h
    exact ⟨rfl, ((congrArg Prod.snd h).symm : s' = s)⟩
  · rw [hp2] at h
    exact absurd (congrArg Prod.fst h) (by simp)
  · rw [hp2] at h
    exact ⟨rfl, ((congrArg Prod.snd h).symm : s' = { s with blocked_by := w })⟩

theorem update_task_blocking_fwd (db : DB) (data : Data) (user : Int) (s : Task)
    (hp : (planBlocking db data user s.id).isFail = false) :
    update_task_blocking db data user s = (none, { s with blocking := wOf (planBlocking db data user s.id) s.blocking }) := by
  rw [update_task_blocking_char db data user s]
  rcases hp2 : planBlocking db data user s.id with _ | e | w
  · rfl
  · rw [hp2] at hp
    simp [Plan.isFail] at hp
  · rfl

theorem update_task_blocking_inv (db : DB) (data : Data) (user : Int) (s s' : Task)
    (h : update_task_blocking db data user s = (none, s')) :
    (planBlocking db data user s.id).isFail = false ∧ s' = { s with blocking := wOf (planBlocking db data user s.id) s.blocking } := by
  rw [update_task_blocking_char db data user s] at h
  rcases hp2 : planBlocking db data user s.id with _ | e | w
  · rw [hp2] at h
    exact ⟨rfl, ((congrArg Prod.snd h).symm : s' = s)⟩
  · rw [hp2] at h
    exact absurd (congrArg Prod.fst h) (by simp)
  · rw [hp2] at h
    exact ⟨rfl, ((congrArg Prod.snd h).symm : s' = { s with blocking := w })⟩

theorem update_task_reminder_enabled_fwd (data : Data) (s : Task)
    (hp : (planRemEnabled data).isFail = false) :
    update_task_reminder_enabled data s = (none, { s with reminder_enabled := wOf (planRemEnabled data) s.reminder_enabled }) := by
  rw [update_task_reminder_enabled_char data s]
  rcases hp2 : planRemEnabled data with _ | e | w
  · rfl
  · rw [hp2] at hp
    simp [Plan.isFail] at hp
  · rfl

theorem update_task_reminder_enabled_inv (data : Data) (s s' : Task)
    (h : update_task_reminder_enabled data s = (none, s')) :
    (planRemEnabled data).isFail = false ∧ s' = { s with reminder_enabled := wOf (planRemEnabled data) s.reminder_enabled } := by
  rw [update_task_reminder_enabled_char data s] at h
  rcases hp2 : planRemEnabled data with _ | e | w
  · rw [hp2] at h
    exact ⟨rfl, ((congrArg Prod.snd h).symm : s' = s)⟩
  · rw [hp2] at h
    exact absurd (congrArg Prod.fst h) (by simp)
  · rw [hp2] at h
    exact ⟨rfl, ((congrArg Prod.snd h).symm : s' = { s with reminder_enabled := w })⟩

theorem update_task_reminder_time_fwd (data : Data) (s : Task)
    (hp : (planRemTime data).isFail = false) :
    update_task_reminder_time data s = (none, { s with reminder_time := wOf (planRemTime data) s.reminder_time }) := by
  rw [update_task_reminder_time_char data s]
  rcases hp2 : planRemTime data with _ | e | w
  · rfl
  · rw [hp2] at hp
    simp [Plan.isFail] at hp
  · rfl

theorem update_task_reminder_time_inv (data : Data) (s s' : Task)
    (h : update_task_reminder_time data s = (none, s')) :
    (planRemTime data).isFail = false ∧ s' = { s with reminder_time := wOf (planRemTime data) s.reminder_time } := by
  rw [update_task_reminder_time_char data s] at h
  rcases hp2 : planRemTime data with _ | e | w
  · rw [hp2] at h
    exact ⟨rfl, ((congrArg Prod.snd h).symm : s' = s)⟩
  · rw [hp2] at h
    exact absurd (congrArg Prod.fst h) (by simp)
  · rw [hp2] at h
    exact ⟨rfl, ((congrArg Prod.snd h).symm : s' = { s with reminder_time := w })⟩

theorem runUpdaters_none_cons (u : Updater) (us : List Updater) (st stF : St)
    (h : runUpdaters (u :: us) st = (none, stF)) :
    ∃ st', u st = (none, st') ∧ runUpdaters us st' = (none, stF) := by
  revert h
  simp only [runUpdaters]
  rcases hu : u st with ⟨e, st'⟩
  cases e with
  | some e =>
    intro h
    exact absurd (congrArg Prod.fst h) (by simp)
  | none =>
    intro h
    exact ⟨st', rfl, h⟩

theorem wrap_none (r : Option String × Task) (db : DB) (st' : St)
    (h : (r.1, St.mk r.2 db) = ((none : Option String), st')) :
    r = (none, st'.task) ∧ st'.db = db := by
  rcases r with ⟨e, t'⟩
  have he : e = none := congrArg Prod.fst h
  have hs : St.mk t' db = st' := congrArg Prod.snd h
  subst he
  rw [← hs]
  exact ⟨rfl, rfl⟩

theorem wrapDB_none (r : Option String × DB) (t : Task) (st' : St)
    (h : (r.1, St.mk t r.2) = ((none : Option String), st')) :
    r = (none, st'.db) ∧ st'.task = t := by
  rcases r with ⟨e, d⟩
  have he : e = none := congrArg Prod.fst h
  have hs : St.mk t d = st' := congrArg Prod.snd h
  subst he
  rw [← hs]
  exact ⟨rfl, rfl⟩

theorem subtasksApply_projects (db : DB) (data : Data) (user tid : Int) :
    (subtasksApply db data user tid).projects = db.projects := by
  unfold subtasksApply
  rcases data.get? "subtasks" with _ | v
  · rfl
  · rcases v with _ | b | n | s | xs | xs <;> rfl

theorem find?_isSome_updateFirstWhere (p : Task → Bool) (f : Task → Task) (q : Task → Bool)
    (hq : ∀ x, q (f x) = q x) : ∀ l : List Task,
    ((updateFirstWhere p f l).find? q).isSome = (l.find? q).isSome := by
  intro l
  induction l with
  | nil => rfl
  | cons a l ih =>
    unfold updateFirstWhere
    by_cases hp : p a = true
    · rw [if_pos hp]
      simp only [List.find?]
      rw [hq a]
      rcases hqa : q a with _ | _ <;> simp [hqa, ih]
    · rw [if_neg hp]
      simp only [List.find?]
      rcases hqa : q a with _ | _ <;> simp [hqa, ih]

theorem applySubtaskEntry_find?_isSome (user pid : Int) (v : Value) (q : Task → Bool)
    (hqt : ∀ (x : Task) (w : String), q { x with title := w } = q x)
    (hqc : ∀ (x : Task) (b : Bool), q { x with completed := b } = q x)
    (l : List Task) :
    ((applySubtaskEntry user pid l v).find? q).isSome = (l.find? q).isSome := by
  unfold applySubtaskEntry
  rcases v with _ | b | n | s | xs | d <;> try rfl
  try simp only []
  rcases Data.get? d "id" with _ | idv
  · rfl
  · apply find?_isSome_updateFirstWhere
    intro x
    rcases Data.get? d "title" with _ | tv <;> rcases Data.get? d "completed" with _ | cv <;>
      try simp only []
    all_goals
      first
        | rfl
        | exact hqc x cv.truthy
        | exact hqt x (pyStrip (pyStr tv))
        | exact (hqc _ cv.truthy).trans (hqt x (pyStrip (pyStr tv)))

theorem foldl_applySubtaskEntry_find?_isSome (user pid : Int) (q : Task → Bool)
    (hqt : ∀ (x : Task) (w : String), q { x with title := w } = q x)
    (hqc : ∀ (x : Task) (b : Bool), q { x with completed := b } = q x) :
    ∀ (xs : List Value) (l : List Task),
    (((xs.foldl (fun ts v => applySubtaskEntry user pid ts v) l).find? q).isSome) =
      ((l.find? q).isSome) := by
  intro xs
  induction xs with
  | nil =>
    intro l
    rfl
  | cons v xs ih =>
    intro l
    rw [List.foldl_cons, ih, applySubtaskEntry_find?_isSome user pid v q hqt hqc]

theorem find?_isSome_map_parentclear (tid : Int) (q : Task → Bool)
    (hqp : ∀ (x : Task) (p : Option Int), q { x with parent_id := p } = q x) :
    ∀ l : List Task,
    ((l.map (fun s => if s.parent_id == some tid then { s with parent_id := none } else s)).find?
      q).isSome = (l.find? q).isSome := by
  intro l
  induction l with
  | nil => rfl
  | cons a l ih =>
    simp only [List.map]
    by_cases hc : (a.parent_id == some tid) = true
    · rw [if_pos hc]
      simp only [List.find?]
      rw [hqp a none]
      rcases hqa : q a with _ | _
      · exact ih
      · rfl
    · rw [if_neg hc]
      simp only [List.find?]
      rcases hqa : q a with _ | _
      · exact ih
      · rfl

theorem subtasksApply_find?_isSome (db : DB) (data : Data) (user tid : Int) :
    ∀ i u', (findTaskBy (subtasksApply db data user tid) i u').isSome =
      (findTaskBy db i u').isSome := by
  intro i u'
  unfold subtasksApply findTaskBy
  rcases data.get? "subtasks" with _ | v
  · rfl
  · rcases v with _ | b | n | s | xs | xs <;> try rfl
    · exact find?_isSome_map_parentclear tid (fun t => t.id == i && t.user_id == u')
        (fun x p => rfl) db.tasks
    · exact foldl_applySubtaskEntry_find?_isSome user tid
        (fun t => t.id == i && t.user_id == u') (fun x w => rfl) (fun x b => rfl) xs db.tasks

theorem collectDeps_congr (db2 db : DB) (user selfId : Int) (inv nf : String)
    (h : ∀ i u', (findTaskBy db2 i u').isSome = (findTaskBy db i u').isSome) :
    ∀ xs, collectDeps db2 user selfId inv nf xs = collectDeps db user selfId inv nf xs := by
  intro xs
  induction xs with
  | nil => rfl
  | cons v rest ih =>
    by_cases hp : pyIsInt v = true
    · rcases hf : findTaskBy db (pyIntVal v) user with _ | u
      · have hf2 : findTaskBy db2 (pyIntVal v) user = none := by
          rcases hx : findTaskBy db2 (pyIntVal v) user with _ | u2
          · rfl
          · have hh := h (pyIntVal v) user
            rw [hf, hx] at hh
            simp at hh
        rw [collectDeps_cons_notFound db2 user selfId inv nf v rest hp hf2,
          collectDeps_cons_notFound db user selfId inv nf v rest hp hf]
      · obtain ⟨u2, hf2⟩ : ∃ u2, findTaskBy db2 (pyIntVal v) user = some u2 := by
          rcases hx : findTaskBy db2 (pyIntVal v) user with _ | u2
          · have hh := h (pyIntVal v) user
            rw [hf, hx] at hh
            simp at hh
          · exact ⟨u2, rfl⟩
        have e1 := (findTaskBy_eq_some hf).1
        have e2 := (findTaskBy_eq_some hf2).1
        by_cases hs : pyIntVal v = selfId
        · rw [collectDeps_cons_self db2 user selfId inv nf v rest u2 hp hf2 (e2.trans hs),
            collectDeps_cons_self db user selfId inv nf v rest u hp hf (e1.trans hs)]
        · rw [collectDeps_cons_good db2 user selfId inv nf v rest u2 hp hf2
              (by rw [e2]; exact hs),
            collectDeps_cons_good db user selfId inv nf v rest u hp hf
              (by rw [e1]; exact hs),
            ih, e1, e2]
    · rw [collectDeps_cons_notInt db2 user selfId inv nf v rest (by simpa using hp),
        collectDeps_cons_notInt db user selfId inv nf v rest (by simpa using hp)]

theorem planProject_congr (db2 db : DB) (data : Data) (user : Int)
    (h : db2.projects = db.projects) :
    planProject db2 data user = planProject db data user := by
  unfold planProject findProjectBy
  rw [h]

theorem planBlockedBy_congr (db2 db : DB) (data : Data) (user selfId : Int)
    (h : ∀ i u', (findTaskBy db2 i u').isSome = (findTaskBy db i u').isSome) :
    planBlockedBy db2 data user selfId = planBlockedBy db data user selfId := by
  unfold planBlockedBy
  simp only [collectDeps_congr db2 db user selfId
    "Invalid blocking task ID: " "Blocking task not found: " h]

theorem planBlocking_congr (db2 db : DB) (data : Data) (user selfId : Int)
    (h : ∀ i u', (findTaskBy db2 i u').isSome = (findTaskBy db i u').isSome) :
    planBlocking db2 data user selfId = planBlocking db data user selfId := by
  unfold planBlocking
  simp only [collectDeps_congr db2 db user selfId
    "Invalid blocked task ID: " "Blocked task not found: " h]

theorem pipeline_ok_run (db : DB) (data : Data) (user : Int) (t : Task)
    (h1 : (planTitle data).isFail = false)
    (h2 : (planDesc data).isFail = false)
    (h3 : (planCompleted data).isFail = false)
    (h4 : (planPriority data).isFail = false)
    (h5 : (planProject db data user).isFail = false)
    (h6 : (planDue data).isFail = false)
    (h7 : (planStart data).isFail = false)
    (h8 : (planRecurrence data).isFail = false)
    (h9 : (planBlockedBy db data user t.id).isFail = false)
    (h10 : (planBlocking db data user t.id).isFail = false)
    (h11 : (planRemEnabled data).isFail = false)
    (h12 : (planRemTime data).isFail = false)
    (h13 : subtasksShapeOk data = true)
    (hdate : validate_dates (wOf (planStart data) t.start_date)
      (wOf (planDue data) t.due_date) = none) :
    validate_and_update_task_fields data user ⟨t, db⟩ =
      (none, ⟨applyPlans db data user t, subtasksApply db data user t.id⟩) := by
  have w1 := fun s => update_task_title_fwd data s h1
  have w2 := fun s => update_task_description_fwd data s h2
  have w3 := fun s => update_task_completed_fwd data s h3
  have w4 := fun s => update_task_priority_fwd data s h4
  have w5 := fun s => update_task_project_fwd db data user s h5
  have w6 := fun s => update_task_due_date_fwd data s h6
  have w7 := fun s => update_task_start_date_fwd data s h7
  have w8 := fun s => update_task_recurrence_fwd data s h8
  have w9 : ∀ s : Task, s.id = t.id →
      update_task_blocked_by db data user s =
        (none, { s with blocked_by := wOf (planBlockedBy db data user s.id) s.blocked_by }) := by
    intro s hs
    exact update_task_blocked_by_fwd db data user s (by rw [hs]; exact h9)
  have w10 : ∀ s : Task, s.id = t.id →
      update_task_blocking db data user s =
        (none, { s with blocking := wOf (planBlocking db data user s.id) s.blocking }) := by
    intro s hs
    exact update_task_blocking_fwd db data user s (by rw [hs]; exact h10)
  have w11 := fun s => update_task_reminder_enabled_fwd data s h11
  have w12 := fun s => update_task_reminder_time_fwd data s h12
  have w13 : ∀ s : Task, update_task_subtasks db data user s =
      (none, subtasksApply db data user s.id) :=
    fun s => update_task_subtasks_char db data user s h13
  simp only [validate_and_update_task_fields, updatersOf, runUpdaters, liftT,
    w1, w2, w3, w4, w5, w6, w7, w8, w9, w10, w11, w12, w13, hdate]
  rfl

theorem pipeline_ok_inv (db : DB) (data : Data) (user : Int) (t : Task) (stF : St)
    (h : validate_and_update_task_fields data user ⟨t, db⟩ = (none, stF)) :
    (planTitle data).isFail = false ∧ (planDesc data).isFail = false ∧
    (planCompleted data).isFail = false ∧ (planPriority data).isFail = false ∧
    (planProject db data user).isFail = false ∧ (planDue data).isFail = false ∧
    (planStart data).isFail = false ∧ (planRecurrence data).isFail = false ∧
    (planBlockedBy db data user t.id).isFail = false ∧
    (planBlocking db data user t.id).isFail = false ∧
    (planRemEnabled data).isFail = false ∧ (planRemTime data).isFail = false ∧
    subtasksShapeOk data = true ∧
    validate_dates (wOf (planStart data) t.start_date)
      (wOf (planDue data) t.due_date) = none ∧
    stF = ⟨applyPlans db data user t, subtasksApply db data user t.id⟩ := by
  rcases hr : runUpdaters (updatersOf data user) ⟨t, db⟩ with ⟨e0, stm⟩
  cases e0 with
  | some e =>
    simp only [validate_and_update_task_fields, hr] at h
    exact absurd (congrArg Prod.fst h) (by simp)
  | none =>
    simp only [validate_and_update_task_fields, hr] at h
    have hdd : validate_dates stm.task.start_date stm.task.due_date = none :=
      congrArg Prod.fst h
    have hfs : stm = stF := congrArg Prod.snd h
    subst hfs
    simp only [updatersOf] at hr
    obtain ⟨st1, hu1, hr⟩ := runUpdaters_none_cons _ _ _ _ hr
    obtain ⟨t1, db1⟩ := st1
    have hu1x : ((update_task_title data t).1, St.mk (update_task_title data t).2 db) =
        (none, St.mk t1 db1) := hu1
    obtain ⟨hud1, hdbx1⟩ := wrap_none _ _ _ hu1x
    have hdby1 : db = db1 := hdbx1.symm
    subst hdby1
    obtain ⟨p1, ht1⟩ := update_task_title_inv data t t1 hud1
    obtain ⟨st2, hu2, hr⟩ := runUpdaters_none_cons _ _ _ _ hr
    obtain ⟨t2, db2⟩ := st2
    have hu2x : ((update_task_description data t1).1, St.mk (update_task_description data t1).2 db) =
        (none, St.mk t2 db2) := hu2
    obtain ⟨hud2, hdbx2⟩ := wrap_none _ _ _ hu2x
    have hdby2 : db = db2 := hdbx2.symm
    subst hdby2
    obtain ⟨p2, ht2⟩ := update_task_description_inv data t1 t2 hud2
    obtain ⟨st3, hu3, hr⟩ := runUpdaters_none_cons _ _ _ _ hr
    obtain ⟨t3, db3⟩ := st3
    have hu3x : ((update_task_completed data t2).1, St.mk (update_task_completed data t2).2 db) =
        (none, St.mk t3 db3) := hu3
    obtain ⟨hud3, hdbx3⟩ := wrap_none _ _ _ hu3x
    have hdby3 : db = db3 := hdbx3.symm
    subst hdby3
    obtain ⟨p3, ht3⟩ := update_task_completed_inv data t2 t3 hud3
    obtain ⟨st4, hu4, hr⟩ := runUpdaters_none_cons _ _ _ _ hr
    obtain ⟨t4, db4⟩ := st4
    have hu4x : ((update_task_priority data t3).1, St.mk (update_task_priority data t3).2 db) =
        (none, St.mk t4 db4) := hu4
    obtain ⟨hud4, hdbx4⟩ := wrap_none _ _ _ hu4x
    have hdby4 : db = db4 := hdbx4.symm
    subst hdby4
    obtain ⟨p4, ht4⟩ := update_task_priority_inv data t3 t4 hud4
    obtain ⟨st5, hu5, hr⟩ := runUpdaters_none_cons _ _ _ _ hr
    obtain ⟨t5, db5⟩ := st5
    have hu5x : ((update_task_project db data user t4).1, St.mk (update_task_project db data user t4).2 db) =
        (none, St.mk t5 db5) := hu5
    obtain ⟨hud5, hdbx5⟩ := wrap_none _ _ _ hu5x
    have hdby5 : db = db5 := hdbx5.symm
    subst hdby5
    obtain ⟨p5, ht5⟩ := update_task_project_inv db data user t4 t5 hud5
    obtain ⟨st6, hu6, hr⟩ := runUpdaters_none_cons _ _ _ _ hr
    obtain ⟨t6, db6⟩ := st6
    have hu6x : ((update_task_due_date data t5).1, St.mk (update_task_due_date data t5).2 db) =
        (none, St.mk t6 db6) := hu6
    obtain ⟨hud6, hdbx6⟩ := wrap_none _ _ _ hu6x
    have hdby6 : db = db6 := hdbx6.symm
    subst hdby6
    obtain ⟨p6, ht6⟩ := update_task_due_date_inv data t5 t6 hud6
    obtain ⟨st7, hu7, hr⟩ := runUpdaters_none_cons _ _ _ _ hr
    obtain ⟨t7, db7⟩ := st7
    have hu7x : ((update_task_start_date data t6).1, St.mk (update_task_start_date data t6).2 db) =
        (none, St.mk t7 db7) := hu7
    obtain ⟨hud7, hdbx7⟩ := wrap_none _ _ _ hu7x
    have hdby7 : db = db7 := hdbx7.symm
    subst hdby7
    obtain ⟨p7, ht7⟩ := update_task_start_date_inv data t6 t7 hud7
    obtain ⟨st8, hu8, hr⟩ := runUpdaters_none_cons _ _ _ _ hr
    obtain ⟨t8, db8⟩ := st8
    have hu8x : ((update_task_recurrence data t7).1, St.mk (update_task_recurrence data t7).2 db) =
        (none, St.mk t8 db8) := hu8
    obtain ⟨hud8, hdbx8⟩ := wrap_none _ _ _ hu8x
    have hdby8 : db = db8 := hdbx8.symm
    subst hdby8
    obtain ⟨p8, ht8⟩ := update_task_recurrence_inv data t7 t8 hud8
    obtain ⟨st9, hu9, hr⟩ := runUpdaters_none_cons _ _ _ _ hr
    obtain ⟨t9, db9⟩ := st9
    have hu9x : ((update_task_blocked_by db data user t8).1, St.mk (update_task_blocked_by db data user t8).2 db) =
        (none, St.mk t9 db9) := hu9
    obtain ⟨hud9, hdbx9⟩ := wrap_none _ _ _ hu9x
    have hdby9 : db = db9 := hdbx9.symm
    subst hdby9
    obtain ⟨p9, ht9⟩ := update_task_blocked_by_inv db data user t8 t9 hud9
    obtain ⟨st10, hu10, hr⟩ := runUpdaters_none_cons _ _ _ _ hr
    obtain ⟨t10, db10⟩ := st10
    have hu10x : ((update_task_blocking db data user t9).1, St.mk (update_task_blocking db data user t9).2 db) =
        (none, St.mk t10 db10) := hu10
    obtain ⟨hud10, hdbx10⟩ := wrap_none _ _ _ hu10x
    have hdby10 : db = db10 := hdbx10.symm
    subst hdby10
    obtain ⟨p10, ht10⟩ := update_task_blocking_inv db data user t9 t10 hud10
    obtain ⟨st11, hu11, hr⟩ := runUpdaters_none_cons _ _ _ _ hr
    obtain ⟨t11, db11⟩ := st11
    have hu11x : ((update_task_reminder_enabled data t10).1, St.mk (update_task_reminder_enabled data t10).2 db) =
        (none, St.mk t11 db11) := hu11
    obtain ⟨hud11, hdbx11⟩ := wrap_none _ _ _ hu11x
    have hdby11 : db = db11 := hdbx11.symm
    subst hdby11
    obtain ⟨p11, ht11⟩ := update_task_reminder_enabled_inv data t10 t11 hud11
    obtain ⟨st12, hu12, hr⟩ := runUpdaters_none_cons _ _ _ _ hr
    obtain ⟨t12, db12⟩ := st12
    have hu12x : ((update_task_reminder_time data t11).1, St.mk (update_task_reminder_time data t11).2 db) =
        (none, St.mk t12 db12) := hu12
    obtain ⟨hud12, hdbx12⟩ := wrap_none _ _ _ hu12x
    have hdby12 : db = db12 := hdbx12.symm
    subst hdby12
    obtain ⟨p12, ht12⟩ := update_task_reminder_time_inv data t11 t12 hud12
    obtain ⟨st13, hu13, hr⟩ := runUpdaters_none_cons _ _ _ _ hr
    obtain ⟨t13, db13⟩ := st13
    have hu13x : ((update_task_subtasks db data user t12).1,
        St.mk t12 (update_task_subtasks db data user t12).2) = (none, St.mk t13 db13) := hu13
    obtain ⟨hud13, htk13⟩ := wrapDB_none _ _ _ hu13x
    have htk13y : t12 = t13 := htk13.symm
    subst htk13y
    obtain ⟨p13, hdb13⟩ := update_task_subtasks_inv db data user t12 db13 hud13
    subst hdb13
    have hstm : St.mk t12 (subtasksApply db data user t12.id) = stm := congrArg Prod.snd hr
    subst hstm
    subst ht1
    subst ht2
    subst ht3
    subst ht4
    subst ht5
    subst ht6
    subst ht7
    subst ht8
    subst ht9
    subst ht10
    subst ht11
    subst ht12
    exact ⟨p1, p2, p3, p4, p5, p6, p7, p8, p9, p10, p11, p12, p13, hdd, rfl⟩

/-- C9: when an update succeeds, running `_validate_and_update_task_fields`
a second time with the identical input also succeeds and leaves the task
in exactly the same final state (`updated_at` is bumped by the storage
layer on commit, outside this helper, and is untouched here). -/
theorem C9_update_idempotent (data : Data) (user : Int) (st stF : St)
    (h : validate_and_update_task_fields data user st = (none, stF)) :
    (validate_and_update_task_fields data user stF).1 = none ∧
    (validate_and_update_task_fields data user stF).2.task = stF.task := by
  obtain ⟨t, db⟩ := st
  obtain ⟨p1, p2, p3, p4, p5, p6, p7, p8, p9, p10, p11, p12, p13, hdate, hstF⟩ :=
    pipeline_ok_inv db data user t stF h
  subst hstF
  set D := subtasksApply db data user t.id with hD
  set T := applyPlans db data user t with hT
  have hS2 := subtasksApply_find?_isSome db data user t.id
  have hPr : planProject D data user = planProject db data user :=
    planProject_congr D db data user (subtasksApply_projects db data user t.id)
  have hBB : planBlockedBy D data user T.id = planBlockedBy db data user t.id :=
    planBlockedBy_congr D db data user t.id hS2
  have hBL : planBlocking D data user T.id = planBlocking db data user t.id :=
    planBlocking_congr D db data user t.id hS2
  have hdate2 : validate_dates (wOf (planStart data) T.start_date)
      (wOf (planDue data) T.due_date) = none := by
    have e6 : wOf (planDue data) T.due_date = wOf (planDue data) t.due_date :=
      wOf_idem (planDue data) t.due_date
    have e7 : wOf (planStart data) T.start_date = wOf (planStart data) t.start_date :=
      wOf_idem (planStart data) t.start_date
    rw [e6, e7]
    exact hdate
  have hrun := pipeline_ok_run D data user T p1 p2 p3 p4
    (by rw [hPr]; exact p5) p6 p7 p8
    (by rw [hBB]; exact p9) (by rw [hBL]; exact p10) p11 p12 p13 hdate2
  rw [hrun]
  refine ⟨rfl, ?_⟩
  show applyPlans D data user T = T
  have e1 : wOf (planTitle data) T.title = T.title := wOf_idem (planTitle data) t.title
  have e2 : wOf (planDesc data) T.description = T.description :=
    wOf_idem (planDesc data) t.description
  have e3 : wOf (planCompleted data) T.completed = T.completed :=
    wOf_idem (planCompleted data) t.completed
  have e4 : wOf (planPriority data) T.priority = T.priority :=
    wOf_idem (planPriority data) t.priority
  have e5 : wOf (planProject D data user) T.project_id = T.project_id := by
    rw [hPr]
    exact wOf_idem (planProject db data user) t.project_id
  have e6 : wOf (planDue data) T.due_date = T.due_date := wOf_idem (planDue data) t.due_date
  have e7 : wOf (planStart data) T.start_date = T.start_date :=
    wOf_idem (planStart data) t.start_date
  have e8 : wOf (planRecurrence data) T.recurrence = T.recurrence :=
    wOf_idem (planRecurrence data) t.recurrence
  have e9 : wOf (planBlockedBy D data user T.id) T.blocked_by = T.blocked_by := by
    rw [hBB]
    exact wOf_idem (planBlockedBy db data user t.id) t.blocked_by
  have e10 : wOf (planBlocking D data user T.id) T.blocking = T.blocking := by
    rw [hBL]
    exact wOf_idem (planBlocking db data user t.id) t.blocking
  have e11 : wOf (planRemEnabled data) T.reminder_enabled = T.reminder_enabled :=
    wOf_idem (planRemEnabled data) t.reminder_enabled
  have e12 : wOf (planRemTime data) T.reminder_time = T.reminder_time :=
    wOf_idem (planRemTime data) t.reminder_time
  simp only [applyPlans, e1, e2, e3, e4, e5, e6, e7, e8, e9, e10, e11, e12]

/-- Witness for C9: an update that trims a title into place reruns to
the same state. -/
theorem C9_update_idempotent_witness :
    (validate_and_update_task_fields [("title", .vStr " x ")] 1
      ⟨{ baseTask with title := "x" }, db0⟩).1 = none ∧
    (validate_and_update_task_fields [("title", .vStr " x ")] 1
      ⟨{ baseTask with title := "x" }, db0⟩).2.task = { baseTask with title := "x" } :=
  C9_update_idempotent [("title", .vStr " x ")] 1 ⟨baseTask, db0⟩
    ⟨{ baseTask with title := "x" }, db0⟩ rfl

end Hub
